import Mathlib

/-!
Verification of the coordination core of the `report_agent` repository:
the message broker (`multi_agent/core/message_broker.py`), the pipeline
coordinator (`multi_agent/agents/coordinator_agent.py`), the worker base
contract (`src/main/python/core/base_agent.py`) and the message envelope
types (`src/main/python/models/message_types.py`), shallowly embedded in
Lean 4.

Modelling conventions:
* Python `dict`s become association lists `List (κ × α)` with the helper
  operations `dlookup` / `dinsert` / `dmodify` / `derase` below, which mirror
  `d[k]`, `d[k] = v`, in-place mutation of the stored object, and `del d[k]`.
* Python `datetime.now()` becomes an explicit `now : ℚ` argument threaded
  through every operation (seconds on an abstract clock); `float` arithmetic
  on durations and averages becomes exact `ℚ` arithmetic.
* Pipeline ids and correlation ids are `List Char`, so that the
  `correlation_id.split('_')[0]` parsing can be reasoned about directly.
* JSON values are the inductive `JValue`; a Python `Dict[str, Any]` payload
  is a `List (String × JValue)`.
-/

set_option autoImplicit false

namespace ReportAgent

/-- Pipeline / correlation identifiers, kept as raw character lists so that
the `split('_')` parsing of `_extract_pipeline_id` is directly expressible. -/
abbrev Str := List Char

/-! ## Association-list embedding of Python dicts -/

section Dict

variable {κ : Type} {α : Type} [DecidableEq κ]

/-- `d[k]` (as `Option`): first binding of key `k`. -/
def dlookup (k : κ) : List (κ × α) → Option α
  | [] => none
  | (k', v) :: l => if k = k' then some v else dlookup k l

/-- `d[k] = v`: replace the binding of `k` in place, or append it. -/
def dinsert (k : κ) (v : α) : List (κ × α) → List (κ × α)
  | [] => [(k, v)]
  | (k', v') :: l => if k = k' then (k, v) :: l else (k', v') :: dinsert k v l

/-- `del d[k]`: remove every binding of key `k`. -/
def derase (k : κ) : List (κ × α) → List (κ × α)
  | [] => []
  | (k', v') :: l => if k = k' then derase k l else (k', v') :: derase k l

/-- Mutation of the object stored under key `k` (Python objects are shared,
so `obj = d[k]; obj.field = x` updates the dict's entry as well). -/
def dmodify (k : κ) (f : α → α) : List (κ × α) → List (κ × α)
  | [] => []
  | (k', v') :: l => if k' = k then (k, f v') :: dmodify k f l else (k', v') :: dmodify k f l

/-- `k in d` as a boolean. -/
def hasKey (k : κ) (l : List (κ × α)) : Bool :=
  (dlookup k l).isSome

@[simp] theorem dlookup_nil (k : κ) : dlookup k ([] : List (κ × α)) = none := rfl

@[simp] theorem dlookup_cons (k k' : κ) (v : α) (l : List (κ × α)) :
    dlookup k ((k', v) :: l) = if k = k' then some v else dlookup k l := rfl

@[simp] theorem dlookup_dinsert_self (k : κ) (v : α) (l : List (κ × α)) :
    dlookup k (dinsert k v l) = some v := by
  induction l with
  | nil => simp [dinsert]
  | cons kv l ih =>
    obtain ⟨k', v'⟩ := kv
    by_cases h : k = k' <;> simp [dinsert, h, ih]

theorem dlookup_dinsert_ne (k k' : κ) (v : α) (l : List (κ × α)) (h : k ≠ k') :
    dlookup k (dinsert k' v l) = dlookup k l := by
  induction l with
  | nil => simp [dinsert, h]
  | cons kv l ih =>
    obtain ⟨k'', v''⟩ := kv
    by_cases h2 : k' = k'' <;> by_cases h3 : k = k'' <;>
      simp_all [dinsert]

@[simp] theorem dlookup_derase_self (k : κ) (l : List (κ × α)) :
    dlookup k (derase k l) = none := by
  induction l with
  | nil => simp [derase]
  | cons kv l ih =>
    obtain ⟨k', v'⟩ := kv
    by_cases h : k = k'
    · subst h; simp [derase, ih]
    · simp [derase, h, ih]

theorem dlookup_derase_ne (k k' : κ) (l : List (κ × α)) (h : k ≠ k') :
    dlookup k (derase k' l) = dlookup k l := by
  induction l with
  | nil => simp [derase]
  | cons kv l ih =>
    obtain ⟨k'', v''⟩ := kv
    by_cases h2 : k' = k'' <;> by_cases h3 : k = k'' <;>
      simp_all [derase]

@[simp] theorem dlookup_dmodify_self (k : κ) (f : α → α) (l : List (κ × α)) :
    dlookup k (dmodify k f l) = (dlookup k l).map f := by
  induction l with
  | nil => simp [dmodify]
  | cons kv l ih =>
    obtain ⟨k', v'⟩ := kv
    by_cases h : k' = k
    · subst h; simp [dmodify, ih]
    · have h' : k ≠ k' := fun hc => h hc.symm
      simp [dmodify, h, h', ih]

theorem dlookup_dmodify_ne (k k' : κ) (f : α → α) (l : List (κ × α)) (h : k ≠ k') :
    dlookup k (dmodify k' f l) = dlookup k l := by
  induction l with
  | nil => simp [dmodify]
  | cons kv l ih =>
    obtain ⟨k'', v''⟩ := kv
    by_cases h2 : k'' = k'
    · subst h2
      have h3 : k ≠ k'' := h
      simp [dmodify, h3, ih]
    · by_cases h3 : k = k'' <;> simp [dmodify, h2, h3, ih]

theorem hasKey_dinsert (k k' : κ) (v : α) (l : List (κ × α)) :
    hasKey k (dinsert k' v l) = (k = k' || hasKey k l) := by
  by_cases h : k = k'
  · subst h; simp [hasKey]
  · simp [hasKey, dlookup_dinsert_ne _ _ _ _ h, h]

theorem hasKey_derase (k k' : κ) (l : List (κ × α)) :
    hasKey k (derase k' l) = (decide (k ≠ k') && hasKey k l) := by
  by_cases h : k = k'
  · subst h; simp [hasKey]
  · simp [hasKey, dlookup_derase_ne _ _ _ h, h]

theorem hasKey_dmodify (k k' : κ) (f : α → α) (l : List (κ × α)) :
    hasKey k (dmodify k' f l) = hasKey k l := by
  by_cases h : k = k'
  · subst h; simp [hasKey]
  · simp [hasKey, dlookup_dmodify_ne _ _ _ _ h]

end Dict

/-! ## Message and pipeline enumerations (`message_types.py`, `coordinator_agent.py`) -/

/-- `MessageType(str, Enum)` from `message_types.py`. -/
inductive MessageType where
  | fetchData | normalizeData | generateInsights | createReport | createDashboard
  | rawData | cleanData | insights | reportReady | dashboardReady
  | taskStarted | taskCompleted | taskFailed | heartbeat
  deriving DecidableEq, Repr

/-- The `.value` string of each `MessageType` member. -/
def MessageType.value : MessageType → String
  | .fetchData => "FETCH_DATA"
  | .normalizeData => "NORMALIZE_DATA"
  | .generateInsights => "GENERATE_INSIGHTS"
  | .createReport => "CREATE_REPORT"
  | .createDashboard => "CREATE_DASHBOARD"
  | .rawData => "RAW_DATA"
  | .cleanData => "CLEAN_DATA"
  | .insights => "INSIGHTS"
  | .reportReady => "REPORT_READY"
  | .dashboardReady => "DASHBOARD_READY"
  | .taskStarted => "TASK_STARTED"
  | .taskCompleted => "TASK_COMPLETED"
  | .taskFailed => "TASK_FAILED"
  | .heartbeat => "HEARTBEAT"

/-- `MessageType(s)`: the enum constructor call, `none` models `ValueError`. -/
def MessageType.ofValue : String → Option MessageType
  | "FETCH_DATA" => some .fetchData
  | "NORMALIZE_DATA" => some .normalizeData
  | "GENERATE_INSIGHTS" => some .generateInsights
  | "CREATE_REPORT" => some .createReport
  | "CREATE_DASHBOARD" => some .createDashboard
  | "RAW_DATA" => some .rawData
  | "CLEAN_DATA" => some .cleanData
  | "INSIGHTS" => some .insights
  | "REPORT_READY" => some .reportReady
  | "DASHBOARD_READY" => some .dashboardReady
  | "TASK_STARTED" => some .taskStarted
  | "TASK_COMPLETED" => some .taskCompleted
  | "TASK_FAILED" => some .taskFailed
  | "HEARTBEAT" => some .heartbeat
  | _ => none

/-- `AgentType(str, Enum)` from `message_types.py`. -/
inductive AgentType where
  | coordinator | dataFetch | normalization | rag | report | dashboard
  deriving DecidableEq, Repr

/-- The `.value` string of each `AgentType` member. -/
def AgentType.value : AgentType → String
  | .coordinator => "coordinator"
  | .dataFetch => "data_fetch"
  | .normalization => "normalization"
  | .rag => "rag"
  | .report => "report"
  | .dashboard => "dashboard"

/-- `AgentType(s)`: the enum constructor call, `none` models `ValueError`. -/
def AgentType.ofValue : String → Option AgentType
  | "coordinator" => some .coordinator
  | "data_fetch" => some .dataFetch
  | "normalization" => some .normalization
  | "rag" => some .rag
  | "report" => some .report
  | "dashboard" => some .dashboard
  | _ => none

/-- `PipelineStatus` from `coordinator_agent.py`. -/
inductive PipelineStatus where
  | pending | running | completed | failed | cancelled
  deriving DecidableEq, Repr

/-- `PipelineStage` from `coordinator_agent.py`. -/
inductive PipelineStage where
  | init | dataFetch | normalization | ragProcessing | reportGeneration
  | dashboardReady | cleanup
  deriving DecidableEq, Repr

/-- All members of `PipelineStage`, in declaration order
(`for stage in PipelineStage`). -/
def PipelineStage.all : List PipelineStage :=
  [.init, .dataFetch, .normalization, .ragProcessing, .reportGeneration,
   .dashboardReady, .cleanup]

/-! ## JSON values -/

/-- A JSON value; a Python `Dict[str, Any]` message payload is the
association list of a `JValue.obj`. -/
inductive JValue where
  | null
  | bool (b : Bool)
  | num (n : Int)
  | str (s : String)
  | arr (xs : List JValue)
  | obj (kvs : List (String × JValue))
  deriving Repr

/-! ## Message broker (`multi_agent/core/message_broker.py`)

`MessageMetadata` is a mutable Python dataclass, and `broadcast_message`
constructs per-recipient copies of a `BaseMessage` that all hold a reference
to the *same* metadata object before assigning
`broadcast_message.metadata.recipient = recipient`.  To express this
sharing, the broker embedding keeps metadata objects in an explicit heap
(`metaStore`, indexed by `Nat` references); a message carries the reference
of its metadata object. -/

/-- `MessageMetadata` (`message_types.py`), as stored on the metadata heap. -/
structure RMeta where
  message_id : String
  sender : AgentType
  recipient : AgentType
  timestamp : ℚ
  correlation_id : Option Str
  retry_count : Nat
  deriving Repr

instance : Inhabited RMeta :=
  ⟨⟨"", .coordinator, .coordinator, 0, none, 0⟩⟩

/-- `BaseMessage` as seen by the broker: the metadata field is a reference
into the metadata heap. -/
structure RMessage where
  type : MessageType
  metaRef : Nat
  payload : List (String × JValue)
  deriving Repr

/-- Heap read `l[n]` (out-of-range reads return the default object; every
use below is in range). -/
def hget : List RMeta → Nat → RMeta
  | [], _ => default
  | a :: _, 0 => a
  | _ :: l, n + 1 => hget l n

/-- Heap write `l[n] := v` (no-op out of range). -/
def hset : List RMeta → Nat → RMeta → List RMeta
  | [], _, _ => []
  | _ :: l, 0, v => v :: l
  | a :: l, n + 1, v => a :: hset l n v

@[simp] theorem hget_hset_self (l : List RMeta) (n : Nat) (v : RMeta)
    (h : n < l.length) : hget (hset l n v) n = v := by
  induction l generalizing n with
  | nil => simp at h
  | cons a l ih =>
    cases n with
    | zero => rfl
    | succ n => exact ih n (by simpa using h)

@[simp] theorem length_hset (l : List RMeta) (n : Nat) (v : RMeta) :
    (hset l n v).length = l.length := by
  induction l generalizing n with
  | nil => rfl
  | cons a l ih =>
    cases n with
    | zero => rfl
    | succ n => simp [hset, ih]

/-- The state of a `MessageBroker` instance.  `agents` is the registry,
`queues` the per-recipient FIFO queues (a missing key is an empty queue,
as with `defaultdict(asyncio.Queue)`), and the three counters are the
`stats` dict entries. -/
structure BrokerState where
  metaStore : List RMeta
  agents : List AgentType
  queues : List (AgentType × List RMessage)
  message_history : List RMessage
  pending_confirmations : List (String × RMessage)
  messages_sent : Nat
  messages_delivered : Nat
  messages_failed : Nat
  deriving Repr

/-- Queue of `a` (`self.message_queues[recipient]`, defaultdict semantics). -/
def qget (qs : List (AgentType × List RMessage)) (a : AgentType) : List RMessage :=
  (dlookup a qs).getD []

/-- `await self.message_queues[recipient].put(message)`. -/
def qput (qs : List (AgentType × List RMessage)) (a : AgentType) (m : RMessage) :
    List (AgentType × List RMessage) :=
  dinsert a (qget qs a ++ [m]) qs

/-- `_validate_message`: `message.type` and `message.metadata` are typed
objects here and hence always truthy; an empty payload dict is falsy, so
the `not message.payload` branch rejects exactly the empty payload.  The
recipient-registration check only logs a warning and still accepts. -/
def validateMessage (m : RMessage) : Bool :=
  !m.payload.isEmpty

/-- `send_message`: validate, append to history, enqueue on the recipient's
queue (the recipient is read from the metadata heap at send time), record
the pending confirmation and bump `messages_sent`.  A validation failure
returns `False` with the state untouched; no exception escapes. -/
def sendMessage (s : BrokerState) (m : RMessage) : Bool × BrokerState :=
  if validateMessage m then
    let md := hget s.metaStore m.metaRef
    (true,
      { s with
        message_history := s.message_history ++ [m]
        queues := qput s.queues md.recipient m
        pending_confirmations := dinsert md.message_id m s.pending_confirmations
        messages_sent := s.messages_sent + 1 })
  else
    (false, s)

/-- One iteration of `broadcast_message`'s loop: build a copy of the
envelope that *shares* the original metadata reference, assign
`broadcast_message.metadata.recipient = recipient` through that shared
reference, and call `send_message`. -/
def broadcastStep (m : RMessage) (r : AgentType) (s : BrokerState) : Bool × BrokerState :=
  let st := { s with
    metaStore := hset s.metaStore m.metaRef
      { hget s.metaStore m.metaRef with recipient := r } }
  sendMessage st { type := m.type, metaRef := m.metaRef, payload := m.payload }

/-- `broadcast_message`'s recursion over the recipient list; the returned
count totals the successful sends. -/
def broadcastGo (m : RMessage) : List AgentType → BrokerState → Nat × BrokerState
  | [], s => (0, s)
  | r :: rs, s =>
    let res := broadcastStep m r s
    let rest := broadcastGo m rs res.2
    ((if res.1 then 1 else 0) + rest.1, rest.2)

/-- `broadcast_message(message, recipients) -> success_count`. -/
def broadcastMessage (s : BrokerState) (m : RMessage) (recipients : List AgentType) :
    Nat × BrokerState :=
  broadcastGo m recipients s

/-! ### Broker lemmas -/

theorem qget_qput (qs : List (AgentType × List RMessage)) (a b : AgentType) (m : RMessage) :
    qget (qput qs a m) b = if b = a then qget qs a ++ [m] else qget qs b := by
  by_cases h : b = a
  · subst h; simp [qget, qput]
  · simp [qget, qput, dlookup_dinsert_ne _ _ _ _ h, h]

theorem sendMessage_metaStore (s : BrokerState) (m : RMessage) :
    (sendMessage s m).2.metaStore = s.metaStore := by
  by_cases h : validateMessage m <;> simp [sendMessage, h]

theorem sendMessage_fst_of_valid (s : BrokerState) (m : RMessage)
    (h : validateMessage m = true) : (sendMessage s m).1 = true := by
  simp [sendMessage, h]

theorem sendMessage_queues_of_valid (s : BrokerState) (m : RMessage)
    (h : validateMessage m = true) :
    (sendMessage s m).2.queues
      = qput s.queues (hget s.metaStore m.metaRef).recipient m := by
  simp [sendMessage, h]

theorem sendMessage_queues_of_invalid (s : BrokerState) (m : RMessage)
    (h : validateMessage m = false) : (sendMessage s m).2.queues = s.queues := by
  simp [sendMessage, h]

theorem broadcastStep_metaStore (m : RMessage) (r : AgentType) (s : BrokerState) :
    (broadcastStep m r s).2.metaStore
      = hset s.metaStore m.metaRef { hget s.metaStore m.metaRef with recipient := r } := by
  simp [broadcastStep, sendMessage_metaStore]

theorem broadcastStep_metaStore_length (m : RMessage) (r : AgentType) (s : BrokerState) :
    (broadcastStep m r s).2.metaStore.length = s.metaStore.length := by
  rw [broadcastStep_metaStore]
  simp

theorem broadcastStep_fst_of_valid (m : RMessage) (r : AgentType) (s : BrokerState)
    (h : validateMessage m = true) : (broadcastStep m r s).1 = true := by
  have h' : validateMessage ⟨m.type, m.metaRef, m.payload⟩ = true := h
  simp [broadcastStep, sendMessage_fst_of_valid _ _ h']

theorem broadcastStep_queues_of_valid (m : RMessage) (r : AgentType) (s : BrokerState)
    (h : validateMessage m = true) (hr : m.metaRef < s.metaStore.length) :
    (broadcastStep m r s).2.queues
      = qput s.queues r ⟨m.type, m.metaRef, m.payload⟩ := by
  have h' : validateMessage ⟨m.type, m.metaRef, m.payload⟩ = true := h
  unfold broadcastStep
  rw [sendMessage_queues_of_valid _ _ h']
  simp [hget_hset_self _ _ _ hr]

theorem broadcastStep_queues_cases (m : RMessage) (r : AgentType) (s : BrokerState) :
    (broadcastStep m r s).2.queues = s.queues
    ∨ ∃ a', (broadcastStep m r s).2.queues
        = qput s.queues a' ⟨m.type, m.metaRef, m.payload⟩ := by
  by_cases h : validateMessage (⟨m.type, m.metaRef, m.payload⟩ : RMessage)
  · refine Or.inr ⟨(hget (hset s.metaStore m.metaRef
      { hget s.metaStore m.metaRef with recipient := r }) m.metaRef).recipient, ?_⟩
    unfold broadcastStep
    rw [sendMessage_queues_of_valid _ _ h]
  · refine Or.inl ?_
    unfold broadcastStep
    rw [sendMessage_queues_of_invalid _ _ (by simpa using h)]

theorem broadcastGo_metaStore_length (m : RMessage) (rs : List AgentType) (s : BrokerState) :
    (broadcastGo m rs s).2.metaStore.length = s.metaStore.length := by
  induction rs generalizing s with
  | nil => rfl
  | cons r rs ih =>
    simp only [broadcastGo]
    rw [ih, broadcastStep_metaStore_length]

theorem broadcastGo_count (m : RMessage) (rs : List AgentType) (s : BrokerState)
    (hv : validateMessage m = true) :
    (broadcastGo m rs s).1 = rs.length := by
  induction rs generalizing s with
  | nil => rfl
  | cons r rs ih =>
    simp only [broadcastGo]
    rw [ih, broadcastStep_fst_of_valid _ _ _ hv]
    simp [Nat.add_comm]

theorem broadcastGo_hget_last (m : RMessage) (rs : List AgentType) (s : BrokerState)
    (hr : m.metaRef < s.metaStore.length) (r : AgentType) (hlast : rs.getLast? = some r) :
    hget (broadcastGo m rs s).2.metaStore m.metaRef
      = { hget s.metaStore m.metaRef with recipient := r } := by
  induction rs generalizing s with
  | nil => simp at hlast
  | cons r0 rs ih =>
    simp only [broadcastGo]
    cases rs with
    | nil =>
      simp at hlast
      subst hlast
      simp only [broadcastGo]
      rw [broadcastStep_metaStore]
      simp [hget_hset_self _ _ _ hr]
    | cons r1 rs' =>
      rw [List.getLast?_cons_cons] at hlast
      have hr' : m.metaRef < (broadcastStep m r0 s).2.metaStore.length := by
        rw [broadcastStep_metaStore_length]; exact hr
      rw [ih _ hr' hlast, broadcastStep_metaStore]
      simp [hget_hset_self _ _ _ hr]

theorem broadcastGo_queue_length (m : RMessage) (rs : List AgentType) (s : BrokerState)
    (hv : validateMessage m = true) (hr : m.metaRef < s.metaStore.length) (a : AgentType) :
    (qget (broadcastGo m rs s).2.queues a).length
      = (qget s.queues a).length + rs.count a := by
  induction rs generalizing s with
  | nil => simp [broadcastGo]
  | cons r rs ih =>
    simp only [broadcastGo]
    have hr' : m.metaRef < (broadcastStep m r s).2.metaStore.length := by
      rw [broadcastStep_metaStore_length]; exact hr
    rw [ih _ hr']
    rw [broadcastStep_queues_of_valid _ _ _ hv hr, qget_qput]
    by_cases hra : a = r
    · subst hra
      simp [List.count_cons]
      omega
    · have hra' : (a == r) = false := by simp [hra]
      simp [hra, List.count_cons, hra']

theorem broadcastGo_queue_mem (m : RMessage) (rs : List AgentType) (s : BrokerState)
    (a : AgentType) (msg : RMessage) (hmem : msg ∈ qget (broadcastGo m rs s).2.queues a) :
    msg ∈ qget s.queues a ∨ msg = ⟨m.type, m.metaRef, m.payload⟩ := by
  induction rs generalizing s with
  | nil => exact Or.inl hmem
  | cons r rs ih =>
    simp only [broadcastGo] at hmem
    rcases ih _ hmem with h | h
    · rcases broadcastStep_queues_cases m r s with hq | ⟨a', hq⟩
      · rw [hq] at h
        exact Or.inl h
      · rw [hq, qget_qput] at h
        by_cases hra : a = a'
        · subst hra
          rw [if_pos rfl] at h
          rcases List.mem_append.mp h with h2 | h2
          · exact Or.inl h2
          · exact Or.inr (by simpa using h2)
        · rw [if_neg hra] at h
          exact Or.inl h
    · exact Or.inr h

/-! ### Claim C2 -/

/-- A broker state with one registered metadata object and zeroed stats. -/
def brokerStateC2 : BrokerState :=
  { metaStore := [⟨"msg-1", .coordinator, .dataFetch, 0, none, 0⟩]
    agents := [.coordinator, .dataFetch]
    queues := []
    message_history := []
    pending_confirmations := []
    messages_sent := 0
    messages_delivered := 0
    messages_failed := 0 }

/-- A message whose payload is the empty dict: `_validate_message` rejects it
(`not message.payload` is true for `{}`). -/
def emptyPayloadMsg : RMessage := ⟨.fetchData, 0, []⟩

/-- C2, counterexample: on a message with empty payload, `send_message`
returns `False` and leaves the broker state — including the
`messages_failed` counter — completely unchanged, so the claimed increment
of `messages_failed` does not happen: the validation-failure branch
(`if not self._validate_message(message): return False`) returns before any
counter is touched, and only the `except` branch increments the counter. -/
theorem claim_C2_counterexample :
    sendMessage brokerStateC2 emptyPayloadMsg = (false, brokerStateC2)
    ∧ (sendMessage brokerStateC2 emptyPayloadMsg).2.messages_failed
        ≠ brokerStateC2.messages_failed + 1 := by
  constructor
  · rfl
  · decide

/-- C2 (amended): for every message on which validation fails,
`send_message` returns `False` and leaves the broker state unchanged — the
message history, all queues, the pending confirmations and all three stats
counters (in particular `messages_failed`, which is *not* incremented) —
and, being total, never raises an exception to the caller. -/
theorem claim_C2 (s : BrokerState) (m : RMessage)
    (hinvalid : validateMessage m = false) :
    sendMessage s m = (false, s) := by
  simp [sendMessage, hinvalid]

/-- C2 witness: the amended claim applied to the concrete empty-payload
message. -/
theorem claim_C2_witness :
    validateMessage emptyPayloadMsg = false
    ∧ sendMessage brokerStateC2 emptyPayloadMsg = (false, brokerStateC2) :=
  ⟨rfl, claim_C2 brokerStateC2 emptyPayloadMsg rfl⟩

/-! ### Claim C5 -/

/-- A broker state with a single metadata object on the heap. -/
def brokerStateC5 : BrokerState :=
  { metaStore := [⟨"msg-5", .coordinator, .coordinator, 0, none, 0⟩]
    agents := []
    queues := []
    message_history := []
    pending_confirmations := []
    messages_sent := 0
    messages_delivered := 0
    messages_failed := 0 }

/-- A valid (non-empty payload) message referencing that metadata object. -/
def broadcastMsgC5 : RMessage := ⟨.heartbeat, 0, [("agent_name", .str "coordinator")]⟩

/-- C5, counterexample: broadcasting to `[data_fetch, normalization]`
returns 2 and puts one copy on each recipient's queue, but the copy queued
for `data_fetch` shares the single metadata object, whose `recipient` field
was overwritten by the second loop iteration: dereferencing it yields
`normalization`, not `data_fetch`.  The claimed "distinct recipient fields
across copies" is false. -/
theorem claim_C5_counterexample :
    (broadcastMessage brokerStateC5 broadcastMsgC5 [.dataFetch, .normalization]).1 = 2
    ∧ qget (broadcastMessage brokerStateC5 broadcastMsgC5
        [.dataFetch, .normalization]).2.queues .dataFetch
      = [⟨.heartbeat, 0, [("agent_name", .str "coordinator")]⟩]
    ∧ (hget (broadcastMessage brokerStateC5 broadcastMsgC5
        [.dataFetch, .normalization]).2.metaStore 0).recipient = .normalization
    ∧ AgentType.normalization ≠ AgentType.dataFetch := by
  refine ⟨rfl, rfl, rfl, by decide⟩

/-- C5 (amended): for every valid message `m` (non-empty payload, metadata
reference on the heap) and recipient list, `broadcast_message` enqueues one
copy of the envelope per recipient onto that recipient's own queue, and the
returned count equals the number of recipients for which `send_message`
succeeded (= all of them).  The copies share the message id and the whole
metadata object, so after the call returns the `metadata.recipient` read
through any copy equals the LAST recipient of the list — the copies do not
carry distinct recipient fields. -/
theorem claim_C5 (s : BrokerState) (m : RMessage) (rs : List AgentType)
    (hvalid : validateMessage m = true) (href : m.metaRef < s.metaStore.length) :
    (broadcastMessage s m rs).1 = rs.length
    ∧ (∀ a, (qget (broadcastMessage s m rs).2.queues a).length
        = (qget s.queues a).length + rs.count a)
    ∧ (∀ a msg, msg ∈ qget (broadcastMessage s m rs).2.queues a →
        msg ∈ qget s.queues a ∨ msg = ⟨m.type, m.metaRef, m.payload⟩)
    ∧ (∀ r, rs.getLast? = some r →
        (hget (broadcastMessage s m rs).2.metaStore m.metaRef).recipient = r) := by
  refine ⟨broadcastGo_count m rs s hvalid,
    fun a => broadcastGo_queue_length m rs s hvalid href a,
    fun a msg hmem => broadcastGo_queue_mem m rs s a msg hmem,
    fun r hlast => ?_⟩
  show (hget (broadcastGo m rs s).2.metaStore m.metaRef).recipient = r
  rw [broadcastGo_hget_last m rs s href r hlast]

/-- C5 witness: the amended claim applied to the concrete broadcast of
`broadcastMsgC5` to two recipients. -/
theorem claim_C5_witness :
    validateMessage broadcastMsgC5 = true
    ∧ broadcastMsgC5.metaRef < brokerStateC5.metaStore.length
    ∧ ((broadcastMessage brokerStateC5 broadcastMsgC5 [.dataFetch, .normalization]).1
        = ([AgentType.dataFetch, AgentType.normalization] : List AgentType).length
      ∧ (∀ a, (qget (broadcastMessage brokerStateC5 broadcastMsgC5
            [.dataFetch, .normalization]).2.queues a).length
          = (qget brokerStateC5.queues a).length
            + ([AgentType.dataFetch, AgentType.normalization] : List AgentType).count a)
      ∧ (∀ a msg, msg ∈ qget (broadcastMessage brokerStateC5 broadcastMsgC5
            [.dataFetch, .normalization]).2.queues a →
          msg ∈ qget brokerStateC5.queues a
          ∨ msg = ⟨broadcastMsgC5.type, broadcastMsgC5.metaRef, broadcastMsgC5.payload⟩)
      ∧ (∀ r, ([AgentType.dataFetch, AgentType.normalization] : List AgentType).getLast?
            = some r →
          (hget (broadcastMessage brokerStateC5 broadcastMsgC5
            [.dataFetch, .normalization]).2.metaStore broadcastMsgC5.metaRef).recipient = r)) :=
  ⟨rfl, by decide,
    claim_C5 brokerStateC5 broadcastMsgC5 [.dataFetch, .normalization] rfl (by decide)⟩

/-! ## Worker base contract (`src/main/python/core/base_agent.py`)

`_process_message` looks up the handler for the message type, runs it
through `_execute_with_retry` (exponential backoff, factor 2), and on final
failure logs the error and marks the `TaskStatus` failed.  A handler is
embedded as a function from the attempt index to `Except String α`
(`.error e` models the handler raising), so "raises on every attempt" is
expressible.  The embedding additionally records, as ghost data, the list
of backoff delays slept and the list of messages the code sends — which for
`_process_message` is empty: no code path in it emits a message. -/

/-- The retry-relevant fields of `AgentConfig`. -/
structure AgentConfig where
  max_retries : Nat
  retry_delay : ℚ
  deriving Repr

/-- The backoff sleep performed at the top of a loop iteration of
`_execute_with_retry`: nothing on the first attempt, otherwise
`retry_delay * 2 ^ (attempt - 1)`. -/
def backoffSleep (cfg : AgentConfig) (attempt : Nat) (delays : List ℚ) : List ℚ :=
  if attempt > 0 then delays ++ [cfg.retry_delay * 2 ^ (attempt - 1)] else delays

/-- The loop of `_execute_with_retry`: `attempt` is the loop index,
`remaining` the number of attempts still allowed after this one
(initially `max_retries`), `delays` the backoff sleeps performed so far.
Each iteration sleeps `backoffSleep`, runs the handler, and either returns
its result, re-raises the exception when no attempts remain, or retries. -/
def retryGo {α : Type} (cfg : AgentConfig) (handler : Nat → Except String α) :
    Nat → Nat → List ℚ → Except String α × List ℚ
  | attempt, 0, delays =>
    let delays := backoffSleep cfg attempt delays
    match handler attempt with
    | .ok a => (.ok a, delays)
    | .error e => (.error e, delays)
  | attempt, r + 1, delays =>
    let delays := backoffSleep cfg attempt delays
    match handler attempt with
    | .ok a => (.ok a, delays)
    | .error _ => retryGo cfg handler (attempt + 1) r delays

/-- `_execute_with_retry`: run the handler for attempts
`0 .. max_retries`, sleeping `retry_delay * 2 ^ (attempt - 1)` before each
retry; re-raises the last exception once all attempts failed. -/
def executeWithRetry {α : Type} (cfg : AgentConfig) (handler : Nat → Except String α) :
    Except String α × List ℚ :=
  retryGo cfg handler 0 cfg.max_retries []

/-- The observable outcome of `_process_message` on the task status. -/
inductive TaskOutcome where
  | noHandler
  | completedTask
  | failedTask (error : String)
  deriving DecidableEq, Repr

/-- What `_process_message` does: task outcome, messages sent, and
backoff delays slept. -/
structure ProcessResult where
  outcome : TaskOutcome
  sent : List RMessage
  delays : List ℚ
  deriving Repr

/-- `_process_message`: dispatch to the registered handler with retry; on
final failure it only logs and calls `task_status.fail(error_msg)` with
`error_msg = f"Failed to process message {message.type.value}: {e}"` —
it sends no message whatsoever (the `sent` field collects every
`send_message` call made, and there is none on any path). -/
def processMessage {α : Type} (cfg : AgentConfig)
    (handler : Option (Nat → Except String α)) (msgType : MessageType) : ProcessResult :=
  match handler with
  | none => ⟨.noHandler, [], []⟩
  | some h =>
    match executeWithRetry cfg h with
    | (.ok _, ds) => ⟨.completedTask, [], ds⟩
    | (.error e, ds) =>
      ⟨.failedTask ("Failed to process message " ++ msgType.value ++ ": " ++ e), [], ds⟩

theorem retryGo_all_fail {α : Type} (cfg : AgentConfig) (handler : Nat → Except String α)
    (e : Nat → String) (hfail : ∀ i, handler i = .error (e i)) :
    ∀ remaining attempt delays,
      retryGo cfg handler attempt remaining delays
        = (.error (e (attempt + remaining)),
           backoffSleep cfg attempt delays
             ++ (List.range remaining).map
                  (fun j => cfg.retry_delay * 2 ^ (attempt + j))) := by
  intro remaining
  induction remaining with
  | zero =>
    intro attempt delays
    simp [retryGo, hfail attempt]
  | succ r ih =>
    intro attempt delays
    rw [retryGo]
    simp only [hfail attempt]
    rw [ih (attempt + 1)]
    have harith : attempt + 1 + r = attempt + (r + 1) := by omega
    rw [harith]
    have hback : backoffSleep cfg (attempt + 1) (backoffSleep cfg attempt delays)
        = backoffSleep cfg attempt delays ++ [cfg.retry_delay * 2 ^ attempt] := by
      simp [backoffSleep]
    rw [hback]
    have hrange : (List.range (r + 1)).map (fun j => cfg.retry_delay * 2 ^ (attempt + j))
        = cfg.retry_delay * 2 ^ attempt
          :: (List.range r).map (fun j => cfg.retry_delay * 2 ^ (attempt + 1 + j)) := by
      rw [List.range_succ_eq_map, List.map_cons, List.map_map]
      have hf : ((fun j => cfg.retry_delay * 2 ^ (attempt + j)) ∘ Nat.succ)
          = fun j => cfg.retry_delay * 2 ^ (attempt + 1 + j) := by
        funext j
        have hexp : attempt + Nat.succ j = attempt + 1 + j := by omega
        simp [Function.comp, hexp]
      rw [hf]
      simp
    rw [hrange]
    simp

theorem executeWithRetry_all_fail {α : Type} (cfg : AgentConfig)
    (handler : Nat → Except String α) (e : Nat → String)
    (hfail : ∀ i, handler i = .error (e i)) :
    executeWithRetry cfg handler
      = (.error (e cfg.max_retries),
         (List.range cfg.max_retries).map (fun j => cfg.retry_delay * 2 ^ j)) := by
  unfold executeWithRetry
  rw [retryGo_all_fail cfg handler e hfail cfg.max_retries 0 []]
  simp [backoffSleep]

/-! ### Claim C4 -/

/-- The worker `AgentConfig` defaults: `max_retries=3, retry_delay=1.0`. -/
def defaultAgentConfig : AgentConfig := ⟨3, 1⟩

/-- A handler that raises on every attempt. -/
def alwaysFailingHandler : Nat → Except String Unit :=
  fun _ => .error "database connection lost"

/-- C4, counterexample: with the default config and a handler that raises
on every attempt, `_process_message` exhausts the retries (sleeping the
backoff delays 1, 2, 4) and then merely marks the task failed — the list of
messages it sends is empty, so no TASK_FAILED message addressed to the
coordinator is produced by the retry wrapper, contradicting the claim.
(Error reporting to the coordinator, where it exists, lives inside the
individual worker handlers, and those status messages are built without
the original correlation id.) -/
theorem claim_C4_counterexample :
    processMessage defaultAgentConfig (some alwaysFailingHandler) .fetchData
      = ⟨.failedTask "Failed to process message FETCH_DATA: database connection lost",
         [], [1, 2, 4]⟩
    ∧ (processMessage defaultAgentConfig (some alwaysFailingHandler) .fetchData).sent
        = [] := by
  have hx := executeWithRetry_all_fail defaultAgentConfig alwaysFailingHandler
    (fun _ => "database connection lost") (fun _ => rfl)
  constructor
  · simp only [processMessage]
    rw [hx]
    norm_num [defaultAgentConfig, List.range_succ, MessageType.value]
    rfl
  · simp only [processMessage]
    rw [hx]

/-- C4 (amended): for every delivered message whose registered handler
raises on every attempt, `_execute_with_retry` performs the attempts
`0 .. max_retries` with exponential-backoff delays
`retry_delay * 2 ^ (attempt - 1)` before each retry, and after exhausting
them `_process_message` marks the task failed with an error text carrying
the message type and the handler's error — but it sends no message at all:
in particular no TASK_FAILED message is produced by the retry wrapper. -/
theorem claim_C4 {α : Type} (cfg : AgentConfig) (handler : Nat → Except String α)
    (msgType : MessageType) (e : Nat → String)
    (hfail : ∀ i, handler i = .error (e i)) :
    processMessage cfg (some handler) msgType
      = ⟨.failedTask ("Failed to process message " ++ msgType.value ++ ": "
          ++ e cfg.max_retries),
         [],
         (List.range cfg.max_retries).map (fun j => cfg.retry_delay * 2 ^ j)⟩ := by
  have hx := executeWithRetry_all_fail cfg handler e hfail
  simp [processMessage, hx]

/-- C4 witness: the amended claim applied to the always-failing handler at
the default configuration. -/
theorem claim_C4_witness :
    (∀ i, alwaysFailingHandler i = .error "database connection lost")
    ∧ processMessage defaultAgentConfig (some alwaysFailingHandler) .fetchData
      = ⟨.failedTask ("Failed to process message " ++ MessageType.fetchData.value ++ ": "
          ++ "database connection lost"),
         [],
         (List.range defaultAgentConfig.max_retries).map
           (fun j => defaultAgentConfig.retry_delay * 2 ^ j)⟩ :=
  ⟨fun _ => rfl,
   claim_C4 defaultAgentConfig alwaysFailingHandler .fetchData
     (fun _ => "database connection lost") (fun _ => rfl)⟩

/-! ## Message wire shape (`message_types.py`: `to_json` / `from_json`)

`to_json` renders a `BaseMessage` as the JSON object
`{"type": ..., "metadata": {...}, "payload": {...}}` and `from_json` parses
it back.  The embedding works on the JSON tree (`JValue`) rather than the
serialized string — `json.loads(json.dumps(x))` is the identity on JSON
trees — and abstracts a `datetime` by its ISO-8601 rendering (Python's
`datetime.fromisoformat(ts.isoformat())` round-trips), so the `timestamp`
field is carried as that string. -/

/-- `MessageMetadata` as serialized: `timestamp` is its ISO-8601 string. -/
structure WireMeta where
  message_id : String
  sender : AgentType
  recipient : AgentType
  timestamp : String
  correlation_id : Option String
  retry_count : Int
  deriving Repr

/-- `BaseMessage` for the serialization round trip. -/
structure WireMessage where
  type : MessageType
  metadata : WireMeta
  payload : List (String × JValue)
  deriving Repr

/-- `MessageMetadata.to_dict`. -/
def metadataToDict (md : WireMeta) : List (String × JValue) :=
  [("message_id", .str md.message_id),
   ("sender", .str md.sender.value),
   ("recipient", .str md.recipient.value),
   ("timestamp", .str md.timestamp),
   ("correlation_id", match md.correlation_id with
     | none => .null
     | some c => .str c),
   ("retry_count", .num md.retry_count)]

/-- `BaseMessage.to_json` (up to `json.dumps` of the resulting tree). -/
def toJson (m : WireMessage) : JValue :=
  .obj [("type", .str m.type.value),
        ("metadata", .obj (metadataToDict m.metadata)),
        ("payload", .obj m.payload)]

/-- JSON accessor: the value must be an object. -/
def asObj : JValue → Option (List (String × JValue))
  | .obj kvs => some kvs
  | _ => none

/-- JSON accessor: the value must be a string. -/
def asStr : JValue → Option String
  | .str s => some s
  | _ => none

/-- `BaseMessage.from_json` (after `json.loads`): required key accesses
(`data["..."]`) fail on a missing key, the enum constructors fail on an
unknown value; `metadata.get("correlation_id")` maps both a missing key and
JSON `null` to `None`, and `metadata.get("retry_count", 0)` defaults to 0. -/
def fromJson (j : JValue) : Option WireMessage := do
  let data ← asObj j
  let mdJ ← dlookup "metadata" data >>= asObj
  let mid ← dlookup "message_id" mdJ >>= asStr
  let senderV ← dlookup "sender" mdJ >>= asStr
  let sender ← AgentType.ofValue senderV
  let recipientV ← dlookup "recipient" mdJ >>= asStr
  let recipient ← AgentType.ofValue recipientV
  let ts ← dlookup "timestamp" mdJ >>= asStr
  let corr : Option String := match dlookup "correlation_id" mdJ with
    | some (.str c) => some c
    | _ => none
  let rc : Int := match dlookup "retry_count" mdJ with
    | some (.num n) => n
    | _ => 0
  let tyV ← dlookup "type" data >>= asStr
  let ty ← MessageType.ofValue tyV
  let payload ← dlookup "payload" data >>= asObj
  pure ⟨ty, ⟨mid, sender, recipient, ts, corr, rc⟩, payload⟩

@[simp] theorem agentTypeOfValue_value (a : AgentType) :
    AgentType.ofValue a.value = some a := by
  cases a <;> rfl

@[simp] theorem messageTypeOfValue_value (t : MessageType) :
    MessageType.ofValue t.value = some t := by
  cases t <;> rfl

/-! ### Claim C9 -/

/-- C9: for every message `m`, `from_json(m.to_json())` yields an envelope
equal to `m`: the same kind, the same metadata fields (message id, sender,
recipient, timestamp, correlation id, retry count — with an absent
correlation id serialized as JSON `null` and parsed back to `None`), and a
payload equal to `m`'s payload in the JSON sense. -/
theorem claim_C9 (m : WireMessage) : fromJson (toJson m) = some m := by
  obtain ⟨ty, ⟨mid, sender, recipient, ts, corr, rc⟩, payload⟩ := m
  cases corr <;> cases sender <;> cases recipient <;> cases ty <;> rfl

/-! ## Coordinator (`multi_agent/agents/coordinator_agent.py`)

The coordinator's state is embedded value-style: pipeline ids are
`Str = List Char` (so `correlation_id.split('_')` is expressible),
`datetime.now()` is an explicit `now : ℚ` argument, and the fresh ids drawn
from `uuid.uuid4()` are explicit arguments as well.  Messages on this side
carry their metadata inline (`CMeta`): no coordinator code path mutates a
metadata object shared between two live messages, so value semantics agrees
with the Python objects here. -/

/-- `MessageMetadata` with an abstract-clock timestamp, value-style. -/
structure CMeta where
  message_id : String
  sender : AgentType
  recipient : AgentType
  timestamp : ℚ
  correlation_id : Option Str
  retry_count : Nat
  deriving Repr

/-- `BaseMessage`, value-style, as handled by the coordinator. -/
structure CMessage where
  type : MessageType
  metadata : CMeta
  payload : List (String × JValue)
  deriving Repr

/-- `create_message` (`message_types.py`): fresh uuid and `datetime.now()`
are passed in as `newId` and `now`; the payload here is already a dict. -/
def createMessage (msgType : MessageType) (sender recipient : AgentType)
    (payload : List (String × JValue)) (correlationId : Option Str)
    (newId : String) (now : ℚ) : CMessage :=
  ⟨msgType, ⟨newId, sender, recipient, now, correlationId, 0⟩, payload⟩

/-- `DateRange` with dates as ordinal day numbers. -/
structure DateRangeM where
  dstart : Int
  dend : Int
  deriving DecidableEq, Repr

/-- `PipelineConfig` (defaults in parentheses). -/
structure PipelineConfigM where
  data_fetch_timeout : ℚ
  normalization_timeout : ℚ
  rag_processing_timeout : ℚ
  report_generation_timeout : ℚ
  total_pipeline_timeout : ℚ
  max_retries_per_stage : Nat
  retry_delay_seconds : ℚ
  heartbeat_interval : ℚ
  status_update_interval : ℚ
  default_date_range_days : Int
  max_concurrent_pipelines : Nat
  deriving DecidableEq, Repr

/-- The `PipelineConfig()` defaults. -/
def defaultPipelineConfig : PipelineConfigM :=
  ⟨300, 180, 600, 240, 1800, 2, 5, 30, 10, 90, 5⟩

/-- `PipelineExecution` (with `__post_init__` already applied: the three
tracking dicts start empty resp. zeroed). -/
structure PipelineExecution where
  pipeline_id : Str
  status : PipelineStatus
  current_stage : PipelineStage
  started_at : ℚ
  completed_at : Option ℚ
  error_message : Option JValue
  date_range : DateRangeM
  tables : List String
  filters : List (String × JValue)
  stage_start_times : List (PipelineStage × ℚ)
  stage_completion_times : List (PipelineStage × ℚ)
  retry_counts : List (PipelineStage × Nat)
  data_fetch_result : Option (List (String × JValue))
  normalization_result : Option (List (String × JValue))
  rag_result : Option (List (String × JValue))
  report_result : Option (List (String × JValue))
  deriving Repr

/-- The coordinator's mutable state: the two pipeline maps and the four
performance-metric attributes, plus its `pipeline_config`. -/
structure CoordState where
  config : PipelineConfigM
  active_pipelines : List (Str × PipelineExecution)
  completed_pipelines : List (Str × PipelineExecution)
  total_pipelines_executed : Nat
  successful_pipelines : Nat
  failed_pipelines : Nat
  average_execution_time : ℚ
  deriving Repr

/-- `correlation_id.split('_')[0]`: the prefix before the first
underscore (the whole string when it has no underscore). -/
def splitHead : List Char → List Char
  | [] => []
  | c :: cs => if c = '_' then [] else c :: splitHead cs

/-- `_extract_pipeline_id`: a `None` or empty (falsy) correlation id gives
`None`; otherwise `correlation_id.split('_')[0]`. -/
def extractPipelineId : Option Str → Option Str
  | none => none
  | some c => if c = [] then none else some (splitHead c)

/-- `_get_stage_timeout`. -/
def getStageTimeout (cfg : PipelineConfigM) : PipelineStage → ℚ
  | .dataFetch => cfg.data_fetch_timeout
  | .normalization => cfg.normalization_timeout
  | .ragProcessing => cfg.rag_processing_timeout
  | .reportGeneration => cfg.report_generation_timeout
  | .dashboardReady => 30
  | _ => 60

/-- `start_pipeline`: reject at the concurrency limit (`RuntimeError`,
modelled as `.error`), apply the date-range/tables/filters defaults,
create the `PipelineExecution` in `PENDING`/`INIT` and store it in the
active map.  `newId` stands for the fresh `str(uuid.uuid4())` and `today`
for `date.today()`. -/
def startPipeline (now : ℚ) (today : Int) (newId : Str)
    (dateRange : Option DateRangeM) (tables : Option (List String))
    (filters : Option (List (String × JValue))) (s : CoordState) :
    Except String (Str × CoordState) :=
  if s.active_pipelines.length ≥ s.config.max_concurrent_pipelines then
    .error "Maximum concurrent pipelines reached"
  else
    let dr := match dateRange with
      | some d => d
      | none => ⟨today - s.config.default_date_range_days, today⟩
    let tbs := tables.getD ["returns", "warranties", "products"]
    let fls := filters.getD
      [("store_locations", .arr [.str "all"]),
       ("product_categories", .arr [.str "all"])]
    let pipeline : PipelineExecution :=
      { pipeline_id := newId
        status := .pending
        current_stage := .init
        started_at := now
        completed_at := none
        error_message := none
        date_range := dr
        tables := tbs
        filters := fls
        stage_start_times := []
        stage_completion_times := []
        retry_counts := PipelineStage.all.map (fun st => (st, 0))
        data_fetch_result := none
        normalization_result := none
        rag_result := none
        report_result := none }
    .ok (newId, { s with active_pipelines := dinsert newId pipeline s.active_pipelines })

/-- `_complete_pipeline`: no-op when the id is not active; otherwise set
`completed_at` and the terminal status, count the success or failure, move
the instance from the active to the completed map, and update
`total_pipelines_executed` and the running arithmetic mean of execution
times. -/
def completePipeline (now : ℚ) (pipelineId : Str) (success : Bool)
    (error : Option JValue) (s : CoordState) : CoordState :=
  match dlookup pipelineId s.active_pipelines with
  | none => s
  | some p =>
    let p : PipelineExecution :=
      if success then
        { p with completed_at := some now, status := .completed }
      else
        { p with completed_at := some now, status := .failed, error_message := error }
    let s :=
      if success then { s with successful_pipelines := s.successful_pipelines + 1 }
      else { s with failed_pipelines := s.failed_pipelines + 1 }
    let s := { s with
      completed_pipelines := dinsert pipelineId p s.completed_pipelines
      active_pipelines := derase pipelineId s.active_pipelines }
    let total := s.total_pipelines_executed + 1
    let executionTime := now - p.started_at
    { s with
      total_pipelines_executed := total
      average_execution_time :=
        (s.average_execution_time * ((total : ℚ) - 1) + executionTime) / (total : ℚ) }

/-- `cancel_pipeline`: when the id is active, set status `CANCELLED`,
record the reason and `completed_at`, and move the instance to the
completed map; it touches none of the metric counters. -/
def cancelPipeline (now : ℚ) (pipelineId : Str) (reason : String) (s : CoordState) :
    CoordState :=
  match dlookup pipelineId s.active_pipelines with
  | none => s
  | some p =>
    let p := { p with
      status := PipelineStatus.cancelled
      error_message := some (.str reason)
      completed_at := some now }
    { s with
      completed_pipelines := dinsert pipelineId p s.completed_pipelines
      active_pipelines := derase pipelineId s.active_pipelines }

/-- Common result type of the data-completion handlers: the returned
message (also the one forwarded through `send_message`), the new state, and
the ghost list of messages passed to `send_message`. -/
structure HandlerResult where
  ret : Option CMessage
  state : CoordState
  sent : List CMessage
  deriving Repr

/-- `handle_raw_data`: resolve the pipeline id from the correlation id
(silent no-op when absent, empty, or not active), record the payload as
`data_fetch_result`, stamp the DATA_FETCH completion time, and forward a
NORMALIZE_DATA message to the normalization agent under the same
correlation id. -/
def handleRawData (now : ℚ) (newMsgId : String) (msg : CMessage) (s : CoordState) :
    HandlerResult :=
  match extractPipelineId msg.metadata.correlation_id with
  | none => ⟨none, s, []⟩
  | some pid =>
    if pid.isEmpty then ⟨none, s, []⟩
    else
      match dlookup pid s.active_pipelines with
      | none => ⟨none, s, []⟩
      | some p =>
        let p := { p with
          data_fetch_result := some msg.payload
          stage_completion_times :=
            dinsert PipelineStage.dataFetch now p.stage_completion_times }
        let s := { s with active_pipelines := dmodify pid (fun _ => p) s.active_pipelines }
        let response := createMessage .normalizeData .coordinator .normalization
          msg.payload msg.metadata.correlation_id newMsgId now
        ⟨some response, s, [response]⟩

/-- `handle_clean_data`: like `handle_raw_data` for the NORMALIZATION
stage, forwarding GENERATE_INSIGHTS to the RAG agent. -/
def handleCleanData (now : ℚ) (newMsgId : String) (msg : CMessage) (s : CoordState) :
    HandlerResult :=
  match extractPipelineId msg.metadata.correlation_id with
  | none => ⟨none, s, []⟩
  | some pid =>
    if pid.isEmpty then ⟨none, s, []⟩
    else
      match dlookup pid s.active_pipelines with
      | none => ⟨none, s, []⟩
      | some p =>
        let p := { p with
          normalization_result := some msg.payload
          stage_completion_times :=
            dinsert PipelineStage.normalization now p.stage_completion_times }
        let s := { s with active_pipelines := dmodify pid (fun _ => p) s.active_pipelines }
        let response := createMessage .generateInsights .coordinator .rag
          msg.payload msg.metadata.correlation_id newMsgId now
        ⟨some response, s, [response]⟩

/-- `handle_insights`: like `handle_raw_data` for the RAG_PROCESSING stage,
forwarding CREATE_REPORT to the report agent. -/
def handleInsights (now : ℚ) (newMsgId : String) (msg : CMessage) (s : CoordState) :
    HandlerResult :=
  match extractPipelineId msg.metadata.correlation_id with
  | none => ⟨none, s, []⟩
  | some pid =>
    if pid.isEmpty then ⟨none, s, []⟩
    else
      match dlookup pid s.active_pipelines with
      | none => ⟨none, s, []⟩
      | some p =>
        let p := { p with
          rag_result := some msg.payload
          stage_completion_times :=
            dinsert PipelineStage.ragProcessing now p.stage_completion_times }
        let s := { s with active_pipelines := dmodify pid (fun _ => p) s.active_pipelines }
        let response := createMessage .createReport .coordinator .report
          msg.payload msg.metadata.correlation_id newMsgId now
        ⟨some response, s, [response]⟩

/-- `handle_report_ready`: records `report_result`, stamps BOTH the
REPORT_GENERATION and DASHBOARD_READY completion times, and forwards
DASHBOARD_READY to the dashboard agent. -/
def handleReportReady (now : ℚ) (newMsgId : String) (msg : CMessage) (s : CoordState) :
    HandlerResult :=
  match extractPipelineId msg.metadata.correlation_id with
  | none => ⟨none, s, []⟩
  | some pid =>
    if pid.isEmpty then ⟨none, s, []⟩
    else
      match dlookup pid s.active_pipelines with
      | none => ⟨none, s, []⟩
      | some p =>
        let p := { p with
          report_result := some msg.payload
          stage_completion_times :=
            dinsert PipelineStage.dashboardReady now
              (dinsert PipelineStage.reportGeneration now p.stage_completion_times) }
        let s := { s with active_pipelines := dmodify pid (fun _ => p) s.active_pipelines }
        let response := createMessage .dashboardReady .coordinator .dashboard
          msg.payload msg.metadata.correlation_id newMsgId now
        ⟨some response, s, [response]⟩

/-- `handle_task_failed`: when the extracted pipeline id is truthy and
active, finalize the pipeline as failed with the payload's `error` field
(default "Unknown error"); otherwise only log.  Returns `None` always. -/
def handleTaskFailed (now : ℚ) (msg : CMessage) (s : CoordState) : CoordState :=
  match extractPipelineId msg.metadata.correlation_id with
  | none => s
  | some pid =>
    if !pid.isEmpty && hasKey pid s.active_pipelines then
      completePipeline now pid false
        (some ((dlookup "error" msg.payload).getD (.str "Unknown error"))) s
    else s

/-- The `for pipeline_id, pipeline in list(self.active_pipelines.items())`
loop of one `_monitoring_loop` sweep, over the snapshot of ids: force-fail
every pipeline whose elapsed time exceeds `total_pipeline_timeout` (the
f-string's elapsed-seconds rendering in the error text is elided). -/
def monitorScan (now : ℚ) : List Str → CoordState → CoordState
  | [], s => s
  | pid :: rest, s =>
    let s' := match dlookup pid s.active_pipelines with
      | none => s
      | some p =>
        if now - p.started_at > s.config.total_pipeline_timeout then
          completePipeline now pid false (some (.str "Pipeline timeout")) s
        else s
    monitorScan now rest s'

/-- One sweep of `_monitoring_loop`. -/
def monitorStep (now : ℚ) (s : CoordState) : CoordState :=
  monitorScan now (s.active_pipelines.map Prod.fst) s

/-- One check of `_wait_for_stage_completion`'s polling loop body. -/
inductive PollResult where
  | stageDone
  | pipelineFailed
  | keepWaiting
  deriving DecidableEq, Repr

/-- The body of the 1-second polling loop in `_wait_for_stage_completion`:
return when the stage is in `stage_completion_times`, raise when the
pipeline's status is FAILED — and only FAILED — otherwise sleep and poll
again. -/
def pollTick (p : PipelineExecution) (stage : PipelineStage) : PollResult :=
  if (dlookup stage p.stage_completion_times).isSome then .stageDone
  else if p.status = PipelineStatus.failed then .pipelineFailed
  else .keepWaiting

/-- Outcome of `_wait_for_stage_completion`. -/
inductive WaitOutcome where
  | stageCompleted
  | failedError
  | timedOut
  deriving DecidableEq, Repr

/-- `_wait_for_stage_completion`'s loop over a pipeline object that no
longer changes (after cancellation the handlers no-op on it, since its id
is no longer active): `fuel` is the number of remaining 1-second ticks
before the stage's configured timeout elapses; exhausting it raises
`TimeoutError` (`.timedOut`). -/
def waitForStage (p : PipelineExecution) (stage : PipelineStage) : Nat → WaitOutcome
  | 0 => .timedOut
  | n + 1 =>
    match pollTick p stage with
    | .stageDone => .stageCompleted
    | .pipelineFailed => .failedError
    | .keepWaiting => waitForStage p stage n

/-- The metric fields of `get_coordinator_stats` (the dict entries
`total_pipelines`, `successful_pipelines`, `failed_pipelines`,
`success_rate`, `average_execution_time_seconds`, `active_pipelines`). -/
structure CoordStats where
  total_pipelines : Nat
  successful_pipelines : Nat
  failed_pipelines : Nat
  success_rate : ℚ
  average_execution_time_seconds : ℚ
  active_pipelines : Nat
  deriving DecidableEq, Repr

/-- `get_coordinator_stats`. -/
def getCoordinatorStats (s : CoordState) : CoordStats :=
  { total_pipelines := s.total_pipelines_executed
    successful_pipelines := s.successful_pipelines
    failed_pipelines := s.failed_pipelines
    success_rate := (s.successful_pipelines : ℚ) / (max 1 s.total_pipelines_executed : ℚ)
    average_execution_time_seconds := s.average_execution_time
    active_pipelines := s.active_pipelines.length }

/-! ### The coordinator operations as a single step type -/

/-- One coordinator operation, with the ambient data (`datetime.now()`,
`date.today()`, fresh uuids) made explicit. -/
inductive CoordOp where
  | opStart (now : ℚ) (today : Int) (newId : Str) (dateRange : Option DateRangeM)
      (tables : Option (List String)) (filters : Option (List (String × JValue)))
  | opRawData (now : ℚ) (newMsgId : String) (msg : CMessage)
  | opCleanData (now : ℚ) (newMsgId : String) (msg : CMessage)
  | opInsights (now : ℚ) (newMsgId : String) (msg : CMessage)
  | opReportReady (now : ℚ) (newMsgId : String) (msg : CMessage)
  | opTaskFailed (now : ℚ) (msg : CMessage)
  | opComplete (now : ℚ) (pipelineId : Str) (success : Bool) (error : Option JValue)
  | opCancel (now : ℚ) (pipelineId : Str) (reason : String)
  | opMonitor (now : ℚ)

/-- Apply one coordinator operation to the state, threading the ghost list
of pipeline ids ever returned by `start_pipeline` (the "created" ids). -/
def applyOp : CoordOp → List Str × CoordState → List Str × CoordState
  | .opStart now today newId dr tb fl, (created, s) =>
    match startPipeline now today newId dr tb fl s with
    | .error _ => (created, s)
    | .ok (pid, s') => (created ++ [pid], s')
  | .opRawData now mid msg, (created, s) => (created, (handleRawData now mid msg s).state)
  | .opCleanData now mid msg, (created, s) => (created, (handleCleanData now mid msg s).state)
  | .opInsights now mid msg, (created, s) => (created, (handleInsights now mid msg s).state)
  | .opReportReady now mid msg, (created, s) =>
    (created, (handleReportReady now mid msg s).state)
  | .opTaskFailed now msg, (created, s) => (created, handleTaskFailed now msg s)
  | .opComplete now pid success err, (created, s) =>
    (created, completePipeline now pid success err s)
  | .opCancel now pid reason, (created, s) => (created, cancelPipeline now pid reason s)
  | .opMonitor now, (created, s) => (created, monitorStep now s)

/-- Side condition of an operation: `start_pipeline`'s fresh
`str(uuid.uuid4())` collides with no pipeline the coordinator has ever
seen; all other operations are unconditional. -/
def OpOK : CoordOp → CoordState → Prop
  | .opStart _ _ newId _ _ _, s =>
    hasKey newId s.active_pipelines = false ∧ hasKey newId s.completed_pipelines = false
  | _, _ => True

/-- The C1 invariant: every created pipeline id is a key of exactly one of
the active and completed maps. -/
def Inv (created : List Str) (s : CoordState) : Prop :=
  ∀ id ∈ created, hasKey id s.active_pipelines = !(hasKey id s.completed_pipelines)

/-- The C10 invariant: the executed-pipelines counter is the sum of the
success and failure counters. -/
def StatsOK (s : CoordState) : Prop :=
  s.total_pipelines_executed = s.successful_pipelines + s.failed_pipelines

/-! ### Field characterizations of the operations -/

theorem completePipeline_inactive (now : ℚ) (pid : Str) (success : Bool)
    (err : Option JValue) (s : CoordState)
    (h : dlookup pid s.active_pipelines = none) :
    completePipeline now pid success err s = s := by
  unfold completePipeline
  rw [h]

theorem completePipeline_fields (now : ℚ) (pid : Str) (success : Bool)
    (err : Option JValue) (s : CoordState) (p : PipelineExecution)
    (h : dlookup pid s.active_pipelines = some p) :
    (completePipeline now pid success err s).active_pipelines
        = derase pid s.active_pipelines
    ∧ (completePipeline now pid success err s).completed_pipelines
        = dinsert pid
            (if success then { p with completed_at := some now, status := .completed }
             else { p with completed_at := some now, status := .failed,
                           error_message := err })
            s.completed_pipelines
    ∧ (completePipeline now pid success err s).total_pipelines_executed
        = s.total_pipelines_executed + 1
    ∧ (completePipeline now pid success err s).successful_pipelines
        = s.successful_pipelines + (if success then 1 else 0)
    ∧ (completePipeline now pid success err s).failed_pipelines
        = s.failed_pipelines + (if success then 0 else 1)
    ∧ (completePipeline now pid success err s).average_execution_time
        = (s.average_execution_time * (((s.total_pipelines_executed + 1 : ℕ) : ℚ) - 1)
            + (now - p.started_at)) / ((s.total_pipelines_executed + 1 : ℕ) : ℚ)
    ∧ (completePipeline now pid success err s).config = s.config := by
  unfold completePipeline
  rw [h]
  cases success <;> simp

theorem cancelPipeline_inactive (now : ℚ) (pid : Str) (reason : String) (s : CoordState)
    (h : dlookup pid s.active_pipelines = none) :
    cancelPipeline now pid reason s = s := by
  unfold cancelPipeline
  rw [h]

theorem cancelPipeline_fields (now : ℚ) (pid : Str) (reason : String) (s : CoordState)
    (p : PipelineExecution) (h : dlookup pid s.active_pipelines = some p) :
    (cancelPipeline now pid reason s).active_pipelines = derase pid s.active_pipelines
    ∧ (cancelPipeline now pid reason s).completed_pipelines
        = dinsert pid
            { p with status := PipelineStatus.cancelled,
                     error_message := some (.str reason), completed_at := some now }
            s.completed_pipelines
    ∧ (cancelPipeline now pid reason s).total_pipelines_executed
        = s.total_pipelines_executed
    ∧ (cancelPipeline now pid reason s).successful_pipelines = s.successful_pipelines
    ∧ (cancelPipeline now pid reason s).failed_pipelines = s.failed_pipelines
    ∧ (cancelPipeline now pid reason s).average_execution_time
        = s.average_execution_time
    ∧ (cancelPipeline now pid reason s).config = s.config := by
  unfold cancelPipeline
  rw [h]
  simp

theorem handleRawData_state_cases (now : ℚ) (mid : String) (msg : CMessage)
    (s : CoordState) :
    (handleRawData now mid msg s).state = s
    ∨ ∃ pid f, (handleRawData now mid msg s).state
        = { s with active_pipelines := dmodify pid f s.active_pipelines } := by
  unfold handleRawData
  cases extractPipelineId msg.metadata.correlation_id with
  | none => exact Or.inl rfl
  | some pid =>
    by_cases hpe : pid.isEmpty
    · simp [hpe]
    · cases hl : dlookup pid s.active_pipelines with
      | none => simp [hpe, hl]
      | some p =>
        refine Or.inr ⟨pid, fun _ => { p with
          data_fetch_result := some msg.payload
          stage_completion_times :=
            dinsert PipelineStage.dataFetch now p.stage_completion_times }, ?_⟩
        simp [hpe, hl]

theorem handleCleanData_state_cases (now : ℚ) (mid : String) (msg : CMessage)
    (s : CoordState) :
    (handleCleanData now mid msg s).state = s
    ∨ ∃ pid f, (handleCleanData now mid msg s).state
        = { s with active_pipelines := dmodify pid f s.active_pipelines } := by
  unfold handleCleanData
  cases extractPipelineId msg.metadata.correlation_id with
  | none => exact Or.inl rfl
  | some pid =>
    by_cases hpe : pid.isEmpty
    · simp [hpe]
    · cases hl : dlookup pid s.active_pipelines with
      | none => simp [hpe, hl]
      | some p =>
        refine Or.inr ⟨pid, fun _ => { p with
          normalization_result := some msg.payload
          stage_completion_times :=
            dinsert PipelineStage.normalization now p.stage_completion_times }, ?_⟩
        simp [hpe, hl]

theorem handleInsights_state_cases (now : ℚ) (mid : String) (msg : CMessage)
    (s : CoordState) :
    (handleInsights now mid msg s).state = s
    ∨ ∃ pid f, (handleInsights now mid msg s).state
        = { s with active_pipelines := dmodify pid f s.active_pipelines } := by
  unfold handleInsights
  cases extractPipelineId msg.metadata.correlation_id with
  | none => exact Or.inl rfl
  | some pid =>
    by_cases hpe : pid.isEmpty
    · simp [hpe]
    · cases hl : dlookup pid s.active_pipelines with
      | none => simp [hpe, hl]
      | some p =>
        refine Or.inr ⟨pid, fun _ => { p with
          rag_result := some msg.payload
          stage_completion_times :=
            dinsert PipelineStage.ragProcessing now p.stage_completion_times }, ?_⟩
        simp [hpe, hl]

theorem handleReportReady_state_cases (now : ℚ) (mid : String) (msg : CMessage)
    (s : CoordState) :
    (handleReportReady now mid msg s).state = s
    ∨ ∃ pid f, (handleReportReady now mid msg s).state
        = { s with active_pipelines := dmodify pid f s.active_pipelines } := by
  unfold handleReportReady
  cases extractPipelineId msg.metadata.correlation_id with
  | none => exact Or.inl rfl
  | some pid =>
    by_cases hpe : pid.isEmpty
    · simp [hpe]
    · cases hl : dlookup pid s.active_pipelines with
      | none => simp [hpe, hl]
      | some p =>
        refine Or.inr ⟨pid, fun _ => { p with
          report_result := some msg.payload
          stage_completion_times :=
            dinsert PipelineStage.dashboardReady now
              (dinsert PipelineStage.reportGeneration now p.stage_completion_times) }, ?_⟩
        simp [hpe, hl]

/-! ### Invariant preservation lemmas -/

theorem inv_dmodify (cr : List Str) (s : CoordState) (pid : Str)
    (f : PipelineExecution → PipelineExecution) (h : Inv cr s) :
    Inv cr { s with active_pipelines := dmodify pid f s.active_pipelines } := by
  intro id hid
  simpa [hasKey_dmodify] using h id hid

theorem inv_completePipeline (cr : List Str) (now : ℚ) (pid : Str) (success : Bool)
    (err : Option JValue) (s : CoordState) (h : Inv cr s) :
    Inv cr (completePipeline now pid success err s) := by
  cases hl : dlookup pid s.active_pipelines with
  | none =>
    rw [completePipeline_inactive now pid success err s hl]
    exact h
  | some p =>
    obtain ⟨ha, hc, -, -, -, -, -⟩ := completePipeline_fields now pid success err s p hl
    intro id hid
    rw [ha, hc, hasKey_derase, hasKey_dinsert]
    by_cases hip : id = pid
    · subst hip
      simp
    · simp only [decide_eq_true_eq] at *
      simp [hip, h id hid]

theorem inv_cancelPipeline (cr : List Str) (now : ℚ) (pid : Str) (reason : String)
    (s : CoordState) (h : Inv cr s) :
    Inv cr (cancelPipeline now pid reason s) := by
  cases hl : dlookup pid s.active_pipelines with
  | none =>
    rw [cancelPipeline_inactive now pid reason s hl]
    exact h
  | some p =>
    obtain ⟨ha, hc, -, -, -, -, -⟩ := cancelPipeline_fields now pid reason s p hl
    intro id hid
    rw [ha, hc, hasKey_derase, hasKey_dinsert]
    by_cases hip : id = pid
    · subst hip
      simp
    · simp [hip, h id hid]

theorem inv_handleTaskFailed (cr : List Str) (now : ℚ) (msg : CMessage) (s : CoordState)
    (h : Inv cr s) : Inv cr (handleTaskFailed now msg s) := by
  unfold handleTaskFailed
  cases extractPipelineId msg.metadata.correlation_id with
  | none => exact h
  | some pid =>
    by_cases hc : !pid.isEmpty && hasKey pid s.active_pipelines
    · simp only [hc, if_pos]
      exact inv_completePipeline cr now pid false _ s h
    · simp only [Bool.not_eq_true] at hc
      simp only [hc, Bool.false_eq_true, if_false]
      exact h

theorem inv_monitorScan (cr : List Str) (now : ℚ) :
    ∀ (l : List Str) (s : CoordState), Inv cr s → Inv cr (monitorScan now l s) := by
  intro l
  induction l with
  | nil => intro s h; exact h
  | cons pid rest ih =>
    intro s h
    rw [monitorScan]
    apply ih
    cases hl : dlookup pid s.active_pipelines with
    | none => simpa [hl] using h
    | some p =>
      by_cases ht : now - p.started_at > s.config.total_pipeline_timeout
      · simpa [hl, ht] using inv_completePipeline cr now pid false _ s h
      · simpa [hl, ht] using h

/-! ### Claim C1 -/

/-- C1: for every pipeline id created by `start_pipeline` (the ghost
`created` list), after every coordinator operation — `start_pipeline`, the
four data-completion handlers, `handle_task_failed`, `_complete_pipeline`,
`cancel_pipeline`, and one sweep of the monitoring loop — the id is a key
of exactly one of `active_pipelines` and `completed_pipelines`, never both
and never neither; `start_pipeline` needs only the freshness of its
uuid. -/
theorem claim_C1 (op : CoordOp) (created : List Str) (s : CoordState)
    (hinv : Inv created s) (hok : OpOK op s) :
    Inv (applyOp op (created, s)).1 (applyOp op (created, s)).2 := by
  cases op with
  | opStart now today newId dr tb fl =>
    obtain ⟨hfa, hfc⟩ := hok
    simp only [applyOp, startPipeline]
    by_cases hcap : s.active_pipelines.length ≥ s.config.max_concurrent_pipelines
    · simpa [hcap] using hinv
    · simp only [hcap, if_false]
      intro id hid
      simp only [List.mem_append, List.mem_singleton] at hid
      rcases hid with hid | hid
      · rw [hasKey_dinsert]
        by_cases hip : id = newId
        · subst hip
          simp [hfc]
        · simp only [hip]
          simpa [hip] using hinv id hid
      · subst hid
        rw [hasKey_dinsert]
        simp [hfc]
  | opRawData now mid msg =>
    rcases handleRawData_state_cases now mid msg s with hs | ⟨pid, f, hs⟩
    · simpa [applyOp, hs] using hinv
    · simpa [applyOp, hs] using inv_dmodify created s pid f hinv
  | opCleanData now mid msg =>
    rcases handleCleanData_state_cases now mid msg s with hs | ⟨pid, f, hs⟩
    · simpa [applyOp, hs] using hinv
    · simpa [applyOp, hs] using inv_dmodify created s pid f hinv
  | opInsights now mid msg =>
    rcases handleInsights_state_cases now mid msg s with hs | ⟨pid, f, hs⟩
    · simpa [applyOp, hs] using hinv
    · simpa [applyOp, hs] using inv_dmodify created s pid f hinv
  | opReportReady now mid msg =>
    rcases handleReportReady_state_cases now mid msg s with hs | ⟨pid, f, hs⟩
    · simpa [applyOp, hs] using hinv
    · simpa [applyOp, hs] using inv_dmodify created s pid f hinv
  | opTaskFailed now msg =>
    simpa [applyOp] using inv_handleTaskFailed created now msg s hinv
  | opComplete now pid success err =>
    simpa [applyOp] using inv_completePipeline created now pid success err s hinv
  | opCancel now pid reason =>
    simpa [applyOp] using inv_cancelPipeline created now pid reason s hinv
  | opMonitor now =>
    simpa [applyOp, monitorStep] using
      inv_monitorScan created now (s.active_pipelines.map Prod.fst) s hinv

/-- A concrete running pipeline, used by several witnesses. -/
def pipelineA : PipelineExecution :=
  { pipeline_id := ['a']
    status := .running
    current_stage := .dataFetch
    started_at := 0
    completed_at := none
    error_message := none
    date_range := ⟨0, 90⟩
    tables := ["returns", "warranties", "products"]
    filters := []
    stage_start_times := [(.dataFetch, 0)]
    stage_completion_times := []
    retry_counts := PipelineStage.all.map (fun st => (st, 0))
    data_fetch_result := none
    normalization_result := none
    rag_result := none
    report_result := none }

/-- A concrete coordinator state with `pipelineA` active and zeroed
metrics. -/
def coordStateA : CoordState :=
  { config := defaultPipelineConfig
    active_pipelines := [(['a'], pipelineA)]
    completed_pipelines := []
    total_pipelines_executed := 0
    successful_pipelines := 0
    failed_pipelines := 0
    average_execution_time := 0 }

/-- C1 witness: the invariant is preserved when cancelling the concrete
active pipeline `a`. -/
theorem claim_C1_witness :
    Inv [['a']] coordStateA
    ∧ OpOK (.opCancel 5 ['a'] "user cancel") coordStateA
    ∧ Inv (applyOp (.opCancel 5 ['a'] "user cancel") ([['a']], coordStateA)).1
        (applyOp (.opCancel 5 ['a'] "user cancel") ([['a']], coordStateA)).2 :=
  ⟨by unfold Inv; decide, trivial,
   claim_C1 (.opCancel 5 ['a'] "user cancel") [['a']] coordStateA
     (by unfold Inv; decide) trivial⟩

/-! ### Counter preservation lemmas (C10, C6) -/

theorem stats_completePipeline (now : ℚ) (pid : Str) (success : Bool)
    (err : Option JValue) (s : CoordState) (h : StatsOK s) :
    StatsOK (completePipeline now pid success err s) := by
  cases hl : dlookup pid s.active_pipelines with
  | none =>
    rw [completePipeline_inactive now pid success err s hl]
    exact h
  | some p =>
    obtain ⟨-, -, ht, hsc, hf, -, -⟩ := completePipeline_fields now pid success err s p hl
    unfold StatsOK at *
    rw [ht, hsc, hf]
    cases success <;> simp <;> omega

theorem cancelPipeline_counters (now : ℚ) (pid : Str) (reason : String) (s : CoordState) :
    (cancelPipeline now pid reason s).total_pipelines_executed
        = s.total_pipelines_executed
    ∧ (cancelPipeline now pid reason s).successful_pipelines = s.successful_pipelines
    ∧ (cancelPipeline now pid reason s).failed_pipelines = s.failed_pipelines
    ∧ (cancelPipeline now pid reason s).average_execution_time
        = s.average_execution_time := by
  cases hl : dlookup pid s.active_pipelines with
  | none =>
    rw [cancelPipeline_inactive now pid reason s hl]
    exact ⟨rfl, rfl, rfl, rfl⟩
  | some p =>
    obtain ⟨-, -, ht, hsc, hf, hav, -⟩ := cancelPipeline_fields now pid reason s p hl
    exact ⟨ht, hsc, hf, hav⟩

theorem stats_cancelPipeline (now : ℚ) (pid : Str) (reason : String) (s : CoordState)
    (h : StatsOK s) : StatsOK (cancelPipeline now pid reason s) := by
  obtain ⟨ht, hsc, hf, -⟩ := cancelPipeline_counters now pid reason s
  unfold StatsOK at *
  rw [ht, hsc, hf]
  exact h

theorem stats_handleTaskFailed (now : ℚ) (msg : CMessage) (s : CoordState)
    (h : StatsOK s) : StatsOK (handleTaskFailed now msg s) := by
  unfold handleTaskFailed
  cases extractPipelineId msg.metadata.correlation_id with
  | none => exact h
  | some pid =>
    by_cases hc : !pid.isEmpty && hasKey pid s.active_pipelines
    · simp only [hc, if_pos]
      exact stats_completePipeline now pid false _ s h
    · simp only [Bool.not_eq_true] at hc
      simp only [hc, Bool.false_eq_true, if_false]
      exact h

theorem stats_monitorScan (now : ℚ) :
    ∀ (l : List Str) (s : CoordState), StatsOK s → StatsOK (monitorScan now l s) := by
  intro l
  induction l with
  | nil => intro s h; exact h
  | cons pid rest ih =>
    intro s h
    rw [monitorScan]
    apply ih
    cases hl : dlookup pid s.active_pipelines with
    | none => simpa [hl] using h
    | some p =>
      by_cases ht : now - p.started_at > s.config.total_pipeline_timeout
      · simpa [hl, ht] using stats_completePipeline now pid false _ s h
      · simpa [hl, ht] using h

/-! ### Claim C10 -/

/-- C10: at every reachable coordinator state,
`total_pipelines_executed = successful_pipelines + failed_pipelines`:
every coordinator operation preserves the equation, `cancel_pipeline`
changes none of the three counters, `_complete_pipeline` on an active
pipeline increments the total together with exactly one of the other two,
and the success rate reported by `get_coordinator_stats` is
`successful / max(1, total)` — so cancelled pipelines are counted in
neither numerator nor denominator. -/
theorem claim_C10 (op : CoordOp) (created : List Str) (s : CoordState)
    (now : ℚ) (pid : Str) (reason : String) (success : Bool) (err : Option JValue)
    (hstats : StatsOK s) :
    StatsOK (applyOp op (created, s)).2
    ∧ ((cancelPipeline now pid reason s).total_pipelines_executed
          = s.total_pipelines_executed
       ∧ (cancelPipeline now pid reason s).successful_pipelines
          = s.successful_pipelines
       ∧ (cancelPipeline now pid reason s).failed_pipelines = s.failed_pipelines)
    ∧ (hasKey pid s.active_pipelines = true →
        (completePipeline now pid success err s).total_pipelines_executed
            = s.total_pipelines_executed + 1
        ∧ (completePipeline now pid success err s).successful_pipelines
            = s.successful_pipelines + (if success then 1 else 0)
        ∧ (completePipeline now pid success err s).failed_pipelines
            = s.failed_pipelines + (if success then 0 else 1))
    ∧ (getCoordinatorStats s).success_rate
        = (s.successful_pipelines : ℚ) / (max 1 s.total_pipelines_executed : ℚ) := by
  refine ⟨?_, ?_, ?_, rfl⟩
  · cases op with
    | opStart now' today newId dr tb fl =>
      simp only [applyOp, startPipeline]
      by_cases hcap : s.active_pipelines.length ≥ s.config.max_concurrent_pipelines
      · simpa [hcap] using hstats
      · simpa [hcap] using hstats
    | opRawData now' mid msg =>
      rcases handleRawData_state_cases now' mid msg s with hs | ⟨pid', f, hs⟩ <;>
        · show StatsOK (handleRawData now' mid msg s).state
          rw [hs]
          exact hstats
    | opCleanData now' mid msg =>
      rcases handleCleanData_state_cases now' mid msg s with hs | ⟨pid', f, hs⟩ <;>
        · show StatsOK (handleCleanData now' mid msg s).state
          rw [hs]
          exact hstats
    | opInsights now' mid msg =>
      rcases handleInsights_state_cases now' mid msg s with hs | ⟨pid', f, hs⟩ <;>
        · show StatsOK (handleInsights now' mid msg s).state
          rw [hs]
          exact hstats
    | opReportReady now' mid msg =>
      rcases handleReportReady_state_cases now' mid msg s with hs | ⟨pid', f, hs⟩ <;>
        · show StatsOK (handleReportReady now' mid msg s).state
          rw [hs]
          exact hstats
    | opTaskFailed now' msg =>
      simpa [applyOp] using stats_handleTaskFailed now' msg s hstats
    | opComplete now' pid' success' err' =>
      simpa [applyOp] using stats_completePipeline now' pid' success' err' s hstats
    | opCancel now' pid' reason' =>
      simpa [applyOp] using stats_cancelPipeline now' pid' reason' s hstats
    | opMonitor now' =>
      simpa [applyOp, monitorStep] using
        stats_monitorScan now' (s.active_pipelines.map Prod.fst) s hstats
  · obtain ⟨ht, hsc, hf, -⟩ := cancelPipeline_counters now pid reason s
    exact ⟨ht, hsc, hf⟩
  · intro hact
    cases hl : dlookup pid s.active_pipelines with
    | none => rw [hasKey, hl] at hact; simp at hact
    | some p =>
      obtain ⟨-, -, ht, hsc, hf, -, -⟩ := completePipeline_fields now pid success err s p hl
      exact ⟨ht, hsc, hf⟩

/-- C10 witness: the invariant holds across completing the concrete active
pipeline `a` successfully. -/
theorem claim_C10_witness :
    StatsOK coordStateA
    ∧ (StatsOK (applyOp (.opComplete 7 ['a'] true none) ([['a']], coordStateA)).2
      ∧ ((cancelPipeline 7 ['a'] "user cancel" coordStateA).total_pipelines_executed
            = coordStateA.total_pipelines_executed
         ∧ (cancelPipeline 7 ['a'] "user cancel" coordStateA).successful_pipelines
            = coordStateA.successful_pipelines
         ∧ (cancelPipeline 7 ['a'] "user cancel" coordStateA).failed_pipelines
            = coordStateA.failed_pipelines)
      ∧ (hasKey ['a'] coordStateA.active_pipelines = true →
          (completePipeline 7 ['a'] true none coordStateA).total_pipelines_executed
              = coordStateA.total_pipelines_executed + 1
          ∧ (completePipeline 7 ['a'] true none coordStateA).successful_pipelines
              = coordStateA.successful_pipelines + (if true then 1 else 0)
          ∧ (completePipeline 7 ['a'] true none coordStateA).failed_pipelines
              = coordStateA.failed_pipelines + (if true then 0 else 1))
      ∧ (getCoordinatorStats coordStateA).success_rate
          = (coordStateA.successful_pipelines : ℚ)
            / (max 1 coordStateA.total_pipelines_executed : ℚ)) :=
  ⟨by unfold StatsOK; decide,
   claim_C10 (.opComplete 7 ['a'] true none) [['a']] coordStateA
     7 ['a'] "user cancel" true none (by unfold StatsOK; decide)⟩

/-! ### Claim C6 -/

/-- C6, counterexample: cancelling the concrete active pipeline `a` leaves
`total_pipelines_executed` at 0 instead of incrementing it to 1, leaves
both outcome counters at 0, and leaves the average untouched —
`cancel_pipeline` performs none of the claimed metric updates. -/
theorem claim_C6_counterexample :
    hasKey ['a'] coordStateA.active_pipelines = true
    ∧ (cancelPipeline 5 ['a'] "user requested" coordStateA).total_pipelines_executed = 0
    ∧ (cancelPipeline 5 ['a'] "user requested" coordStateA).total_pipelines_executed
        ≠ coordStateA.total_pipelines_executed + 1
    ∧ (cancelPipeline 5 ['a'] "user requested" coordStateA).successful_pipelines = 0
    ∧ (cancelPipeline 5 ['a'] "user requested" coordStateA).failed_pipelines = 0
    ∧ (cancelPipeline 5 ['a'] "user requested" coordStateA).average_execution_time
        = coordStateA.average_execution_time := by
  refine ⟨rfl, rfl, by decide, rfl, rfl, rfl⟩

/-- C6 (amended): when a pipeline in the active set is finalized by
`_complete_pipeline`, `total_pipelines_executed` increments by exactly one,
exactly one of `successful_pipelines`/`failed_pipelines` increments, and
`average_execution_time` becomes `(oldAvg*(n-1) + thisExecutionSeconds)/n`
with `n` the new total; but when it is finalized by `cancel_pipeline`, the
pipeline is moved to the completed map with none of the three counters nor
the average changing. -/
theorem claim_C6 (now : ℚ) (pid : Str) (success : Bool) (err : Option JValue)
    (reason : String) (s : CoordState) (p : PipelineExecution)
    (hactive : dlookup pid s.active_pipelines = some p) :
    ((completePipeline now pid success err s).total_pipelines_executed
        = s.total_pipelines_executed + 1
      ∧ (completePipeline now pid success err s).successful_pipelines
          = s.successful_pipelines + (if success then 1 else 0)
      ∧ (completePipeline now pid success err s).failed_pipelines
          = s.failed_pipelines + (if success then 0 else 1)
      ∧ (completePipeline now pid success err s).average_execution_time
          = (s.average_execution_time * (((s.total_pipelines_executed + 1 : ℕ) : ℚ) - 1)
              + (now - p.started_at)) / ((s.total_pipelines_executed + 1 : ℕ) : ℚ)
      ∧ hasKey pid (completePipeline now pid success err s).active_pipelines = false
      ∧ hasKey pid (completePipeline now pid success err s).completed_pipelines = true)
    ∧ ((cancelPipeline now pid reason s).total_pipelines_executed
          = s.total_pipelines_executed
      ∧ (cancelPipeline now pid reason s).successful_pipelines = s.successful_pipelines
      ∧ (cancelPipeline now pid reason s).failed_pipelines = s.failed_pipelines
      ∧ (cancelPipeline now pid reason s).average_execution_time
          = s.average_execution_time
      ∧ hasKey pid (cancelPipeline now pid reason s).active_pipelines = false
      ∧ hasKey pid (cancelPipeline now pid reason s).completed_pipelines = true) := by
  obtain ⟨ha1, hc1, ht1, hs1, hf1, hav1, -⟩ :=
    completePipeline_fields now pid success err s p hactive
  obtain ⟨ha2, hc2, ht2, hs2, hf2, hav2, -⟩ :=
    cancelPipeline_fields now pid "" s p hactive
  obtain ⟨ha2', hc2', ht2', hs2', hf2', hav2', -⟩ :=
    cancelPipeline_fields now pid reason s p hactive
  refine ⟨⟨ht1, hs1, hf1, hav1, ?_, ?_⟩, ⟨ht2', hs2', hf2', hav2', ?_, ?_⟩⟩
  · rw [ha1, hasKey_derase]
    simp
  · rw [hc1, hasKey_dinsert]
    simp
  · rw [ha2', hasKey_derase]
    simp
  · rw [hc2', hasKey_dinsert]
    simp

/-- C6 witness: the amended claim applied to the concrete active pipeline
`a`. -/
theorem claim_C6_witness :
    dlookup ['a'] coordStateA.active_pipelines = some pipelineA
    ∧ (((completePipeline 7 ['a'] true none coordStateA).total_pipelines_executed
          = coordStateA.total_pipelines_executed + 1
        ∧ (completePipeline 7 ['a'] true none coordStateA).successful_pipelines
            = coordStateA.successful_pipelines + (if true then 1 else 0)
        ∧ (completePipeline 7 ['a'] true none coordStateA).failed_pipelines
            = coordStateA.failed_pipelines + (if true then 0 else 1)
        ∧ (completePipeline 7 ['a'] true none coordStateA).average_execution_time
            = (coordStateA.average_execution_time
                * (((coordStateA.total_pipelines_executed + 1 : ℕ) : ℚ) - 1)
                + (7 - pipelineA.started_at))
              / ((coordStateA.total_pipelines_executed + 1 : ℕ) : ℚ)
        ∧ hasKey ['a'] (completePipeline 7 ['a'] true none coordStateA).active_pipelines
            = false
        ∧ hasKey ['a'] (completePipeline 7 ['a'] true none coordStateA).completed_pipelines
            = true)
      ∧ ((cancelPipeline 7 ['a'] "stop" coordStateA).total_pipelines_executed
            = coordStateA.total_pipelines_executed
        ∧ (cancelPipeline 7 ['a'] "stop" coordStateA).successful_pipelines
            = coordStateA.successful_pipelines
        ∧ (cancelPipeline 7 ['a'] "stop" coordStateA).failed_pipelines
            = coordStateA.failed_pipelines
        ∧ (cancelPipeline 7 ['a'] "stop" coordStateA).average_execution_time
            = coordStateA.average_execution_time
        ∧ hasKey ['a'] (cancelPipeline 7 ['a'] "stop" coordStateA).active_pipelines
            = false
        ∧ hasKey ['a'] (cancelPipeline 7 ['a'] "stop" coordStateA).completed_pipelines
            = true)) :=
  ⟨rfl, claim_C6 7 ['a'] true none "stop" coordStateA pipelineA rfl⟩

/-! ### Claim C7 -/

/-- C7: for every pipeline id absent from the active set, a (second) call
to `cancel_pipeline`, any data-completion handler whose correlation id
resolves to that id, and `handle_task_failed`, are no-ops: no exception,
state returned unchanged, `None` returned and nothing sent. -/
theorem claim_C7 (now : ℚ) (newMsgId : String) (reason : String) (msg : CMessage)
    (s : CoordState) (pid : Str)
    (hext : extractPipelineId msg.metadata.correlation_id = some pid)
    (hinactive : hasKey pid s.active_pipelines = false) :
    cancelPipeline now pid reason s = s
    ∧ handleRawData now newMsgId msg s = ⟨none, s, []⟩
    ∧ handleCleanData now newMsgId msg s = ⟨none, s, []⟩
    ∧ handleInsights now newMsgId msg s = ⟨none, s, []⟩
    ∧ handleReportReady now newMsgId msg s = ⟨none, s, []⟩
    ∧ handleTaskFailed now msg s = s := by
  have hnone : dlookup pid s.active_pipelines = none := by
    cases h : dlookup pid s.active_pipelines with
    | none => rfl
    | some p =>
      rw [hasKey, h] at hinactive
      simp at hinactive
  refine ⟨cancelPipeline_inactive now pid reason s hnone, ?_, ?_, ?_, ?_, ?_⟩
  · unfold handleRawData
    rw [hext]
    by_cases hpe : pid.isEmpty <;> simp [hpe, hnone]
  · unfold handleCleanData
    rw [hext]
    by_cases hpe : pid.isEmpty <;> simp [hpe, hnone]
  · unfold handleInsights
    rw [hext]
    by_cases hpe : pid.isEmpty <;> simp [hpe, hnone]
  · unfold handleReportReady
    rw [hext]
    by_cases hpe : pid.isEmpty <;> simp [hpe, hnone]
  · unfold handleTaskFailed
    rw [hext]
    simp [hinactive]

/-- A RAW_DATA message whose correlation id names a pipeline (`gone`) that
is not in the active set. -/
def staleRawDataMsg : CMessage :=
  ⟨.rawData,
   ⟨"msg-stale", .dataFetch, .coordinator, 3,
    some ("gone_data_fetch".toList), 0⟩,
   [("returns", .arr [])]⟩

/-- C7 witness: the claim applied to the stale message and the state whose
only active pipeline is `a`. -/
theorem claim_C7_witness :
    extractPipelineId staleRawDataMsg.metadata.correlation_id
        = some ("gone".toList)
    ∧ hasKey ("gone".toList) coordStateA.active_pipelines = false
    ∧ (cancelPipeline 9 ("gone".toList) "again" coordStateA = coordStateA
      ∧ handleRawData 9 "m-new" staleRawDataMsg coordStateA = ⟨none, coordStateA, []⟩
      ∧ handleCleanData 9 "m-new" staleRawDataMsg coordStateA = ⟨none, coordStateA, []⟩
      ∧ handleInsights 9 "m-new" staleRawDataMsg coordStateA = ⟨none, coordStateA, []⟩
      ∧ handleReportReady 9 "m-new" staleRawDataMsg coordStateA = ⟨none, coordStateA, []⟩
      ∧ handleTaskFailed 9 staleRawDataMsg coordStateA = coordStateA) :=
  ⟨rfl, by decide,
   claim_C7 9 "m-new" "again" staleRawDataMsg coordStateA ("gone".toList) rfl
     (by decide)⟩

/-! ### Claim C8 -/

theorem splitHead_append_underscore (pid rest : List Char) (h : '_' ∉ pid) :
    splitHead (pid ++ '_' :: rest) = pid := by
  induction pid with
  | nil => simp [splitHead]
  | cons c cs ih =>
    have hc : c ≠ '_' := fun hcontra => h (hcontra ▸ List.mem_cons_self c cs)
    have hcs : '_' ∉ cs := fun hm => h (List.mem_cons_of_mem c hm)
    simp [splitHead, hc, ih hcs]

theorem extractPipelineId_prefix (pid rest : List Char) (h : '_' ∉ pid) :
    extractPipelineId (some (pid ++ '_' :: rest)) = some pid := by
  unfold extractPipelineId
  have hne : pid ++ '_' :: rest ≠ [] := by cases pid <;> simp
  simp [hne, splitHead_append_underscore pid rest h]

/-- C8: for an active pipeline `pid` (a uuid: non-empty, no underscore),
handling a RAW_DATA message with correlation id `"<pid>_data_fetch"`
records the payload as that pipeline's `data_fetch_result`, stamps the
DATA_FETCH completion time, and sends exactly one NORMALIZE_DATA message to
the normalization agent, carrying the same correlation id, whose embedded
pipeline id (the prefix before the first underscore) is `pid`. -/
theorem claim_C8 (now : ℚ) (newMsgId : String) (msg : CMessage) (s : CoordState)
    (pid : Str) (p : PipelineExecution)
    (hnou : '_' ∉ pid) (hne : pid ≠ [])
    (hcorr : msg.metadata.correlation_id = some (pid ++ "_data_fetch".toList))
    (hactive : dlookup pid s.active_pipelines = some p) :
    (handleRawData now newMsgId msg s).sent.length = 1
    ∧ (∀ rm ∈ (handleRawData now newMsgId msg s).sent,
        rm.type = MessageType.normalizeData
        ∧ rm.metadata.recipient = AgentType.normalization
        ∧ rm.metadata.correlation_id = msg.metadata.correlation_id
        ∧ extractPipelineId rm.metadata.correlation_id = some pid
        ∧ rm.payload = msg.payload)
    ∧ (handleRawData now newMsgId msg s).ret
        = some (createMessage .normalizeData .coordinator .normalization
            msg.payload msg.metadata.correlation_id newMsgId now)
    ∧ dlookup pid (handleRawData now newMsgId msg s).state.active_pipelines
        = some { p with
            data_fetch_result := some msg.payload
            stage_completion_times :=
              dinsert PipelineStage.dataFetch now p.stage_completion_times }
    ∧ dlookup PipelineStage.dataFetch
        (dinsert PipelineStage.dataFetch now p.stage_completion_times) = some now := by
  have hext : extractPipelineId msg.metadata.correlation_id = some pid := by
    rw [hcorr]
    have hsplit : ("_data_fetch".toList : List Char) = '_' :: "data_fetch".toList := rfl
    rw [hsplit]
    exact extractPipelineId_prefix pid _ hnou
  have hpe : pid.isEmpty = false := by
    cases pid with
    | nil => exact absurd rfl hne
    | cons c cs => rfl
  have hrun : handleRawData now newMsgId msg s = ⟨some (createMessage .normalizeData .coordinator .normalization msg.payload msg.metadata.correlation_id newMsgId now), { s with active_pipelines := dmodify pid (fun _ => { p with data_fetch_result := some msg.payload, stage_completion_times := dinsert PipelineStage.dataFetch now p.stage_completion_times }) s.active_pipelines }, [createMessage .normalizeData .coordinator .normalization msg.payload msg.metadata.correlation_id newMsgId now]⟩ := by
    unfold handleRawData
    rw [hext]
    simp [hpe, hactive]
  refine ⟨by rw [hrun]; rfl, ?_, by rw [hrun], ?_, dlookup_dinsert_self _ _ _⟩
  · intro rm hrm
    rw [hrun] at hrm
    simp only [List.mem_singleton] at hrm
    subst hrm
    exact ⟨rfl, rfl, rfl, hext, rfl⟩
  · rw [hrun]
    show dlookup pid (dmodify pid _ s.active_pipelines) = _
    rw [dlookup_dmodify_self, hactive]
    rfl

/-- A RAW_DATA completion message for the concrete active pipeline `a`. -/
def rawDataMsgA : CMessage :=
  ⟨.rawData,
   ⟨"msg-raw", .dataFetch, .coordinator, 4,
    some ("a_data_fetch".toList), 0⟩,
   [("returns", .arr [.obj [("id", .num 1)]])]⟩

/-- C8 witness: the claim applied to pipeline `a` and `rawDataMsgA`. -/
theorem claim_C8_witness :
    ('_' ∉ (['a'] : List Char)
      ∧ (['a'] : List Char) ≠ []
      ∧ rawDataMsgA.metadata.correlation_id = some (['a'] ++ "_data_fetch".toList)
      ∧ dlookup ['a'] coordStateA.active_pipelines = some pipelineA)
    ∧ ((handleRawData 4 "msg-fwd" rawDataMsgA coordStateA).sent.length = 1
      ∧ (∀ rm ∈ (handleRawData 4 "msg-fwd" rawDataMsgA coordStateA).sent,
          rm.type = MessageType.normalizeData
          ∧ rm.metadata.recipient = AgentType.normalization
          ∧ rm.metadata.correlation_id = rawDataMsgA.metadata.correlation_id
          ∧ extractPipelineId rm.metadata.correlation_id = some ['a']
          ∧ rm.payload = rawDataMsgA.payload)
      ∧ (handleRawData 4 "msg-fwd" rawDataMsgA coordStateA).ret
          = some (createMessage .normalizeData .coordinator .normalization
              rawDataMsgA.payload rawDataMsgA.metadata.correlation_id "msg-fwd" 4)
      ∧ dlookup ['a'] (handleRawData 4 "msg-fwd" rawDataMsgA coordStateA).state.active_pipelines
          = some { pipelineA with
              data_fetch_result := some rawDataMsgA.payload
              stage_completion_times :=
                dinsert PipelineStage.dataFetch 4 pipelineA.stage_completion_times }
      ∧ dlookup PipelineStage.dataFetch
          (dinsert PipelineStage.dataFetch 4 pipelineA.stage_completion_times)
          = some (4 : ℚ)) :=
  ⟨⟨by decide, by decide, rfl, rfl⟩,
   claim_C8 4 "msg-fwd" rawDataMsgA coordStateA ['a'] pipelineA
     (by decide) (by decide) rfl rfl⟩

/-! ### Claim C3 -/

/-- The concrete pipeline `a` as mutated by
`cancel_pipeline(now=5, reason="user cancel")`. -/
def cancelledA : PipelineExecution :=
  { pipelineA with
    status := PipelineStatus.cancelled
    error_message := some (.str "user cancel")
    completed_at := some 5 }

/-- C3, counterexample: pipeline `a` is running with its DATA_FETCH stage
incomplete; cancelling it marks it CANCELLED and moves it to the completed
map, but the very next poll tick of `_wait_for_stage_completion` — which
returns early only on stage completion or status FAILED — still reports
`keepWaiting`, and the loop goes on to poll for the full configured 300
one-second ticks of the DATA_FETCH timeout before raising `TimeoutError`:
it does NOT exit on the next tick. -/
theorem claim_C3_counterexample :
    pipelineA.status = PipelineStatus.running
    ∧ dlookup PipelineStage.dataFetch pipelineA.stage_completion_times = none
    ∧ dlookup ['a'] (cancelPipeline 5 ['a'] "user cancel" coordStateA).completed_pipelines
        = some cancelledA
    ∧ pollTick cancelledA PipelineStage.dataFetch = PollResult.keepWaiting
    ∧ pollTick cancelledA PipelineStage.dataFetch ≠ PollResult.stageDone
    ∧ getStageTimeout defaultPipelineConfig PipelineStage.dataFetch = 300
    ∧ waitForStage cancelledA PipelineStage.dataFetch 300 = WaitOutcome.timedOut := by
  refine ⟨rfl, rfl, rfl, rfl, by decide, rfl, ?_⟩
  have hpoll : pollTick cancelledA PipelineStage.dataFetch = PollResult.keepWaiting := rfl
  have hwait : ∀ n, waitForStage cancelledA PipelineStage.dataFetch n
      = WaitOutcome.timedOut := by
    intro n
    induction n with
    | zero => rfl
    | succ k ih =>
      show (match pollTick cancelledA PipelineStage.dataFetch with
        | .stageDone => WaitOutcome.stageCompleted
        | .pipelineFailed => WaitOutcome.failedError
        | .keepWaiting => waitForStage cancelledA PipelineStage.dataFetch k)
          = WaitOutcome.timedOut
      rw [hpoll]
      exact ih
  exact hwait 300

/-- C3 (amended): if `cancel_pipeline(id, reason)` runs while a
`_wait_for_stage_completion` poll loop for that pipeline is in flight, the
pipeline is marked CANCELLED and moved to the completed map immediately,
but the wait loop does NOT observe the change: its only early exits are
stage completion and status FAILED (not CANCELLED), so it keeps polling —
every tick yields `keepWaiting` — until the stage's configured timeout
elapses and the stage timeout error aborts it. -/
theorem claim_C3 (now : ℚ) (reason : String) (pid : Str) (s : CoordState)
    (p : PipelineExecution) (stage : PipelineStage) (fuel : Nat)
    (hactive : dlookup pid s.active_pipelines = some p)
    (hincomplete : dlookup stage p.stage_completion_times = none) :
    dlookup pid (cancelPipeline now pid reason s).completed_pipelines
      = some { p with
          status := PipelineStatus.cancelled
          error_message := some (.str reason)
          completed_at := some now }
    ∧ pollTick { p with
          status := PipelineStatus.cancelled
          error_message := some (.str reason)
          completed_at := some now } stage
        = PollResult.keepWaiting
    ∧ waitForStage { p with
          status := PipelineStatus.cancelled
          error_message := some (.str reason)
          completed_at := some now } stage fuel
        = WaitOutcome.timedOut := by
  obtain ⟨-, hc, -, -, -, -, -⟩ := cancelPipeline_fields now pid reason s p hactive
  have hpoll : pollTick { p with
      status := PipelineStatus.cancelled
      error_message := some (.str reason)
      completed_at := some now } stage = PollResult.keepWaiting := by
    unfold pollTick
    simp [hincomplete]
  refine ⟨?_, hpoll, ?_⟩
  · rw [hc]
    exact dlookup_dinsert_self _ _ _
  · induction fuel with
    | zero => rfl
    | succ k ih =>
      show (match pollTick { p with
          status := PipelineStatus.cancelled
          error_message := some (.str reason)
          completed_at := some now } stage with
        | .stageDone => WaitOutcome.stageCompleted
        | .pipelineFailed => WaitOutcome.failedError
        | .keepWaiting => waitForStage { p with
            status := PipelineStatus.cancelled
            error_message := some (.str reason)
            completed_at := some now } stage k)
          = WaitOutcome.timedOut
      rw [hpoll]
      exact ih

/-- C3 witness: the amended claim applied to pipeline `a` with the
DATA_FETCH stage incomplete and 300 ticks of fuel. -/
theorem claim_C3_witness :
    (dlookup ['a'] coordStateA.active_pipelines = some pipelineA
      ∧ dlookup PipelineStage.dataFetch pipelineA.stage_completion_times = none)
    ∧ (dlookup ['a'] (cancelPipeline 5 ['a'] "shutdown" coordStateA).completed_pipelines
        = some { pipelineA with
            status := PipelineStatus.cancelled
            error_message := some (.str "shutdown")
            completed_at := some 5 }
      ∧ pollTick { pipelineA with
            status := PipelineStatus.cancelled
            error_message := some (.str "shutdown")
            completed_at := some 5 } PipelineStage.dataFetch
          = PollResult.keepWaiting
      ∧ waitForStage { pipelineA with
            status := PipelineStatus.cancelled
            error_message := some (.str "shutdown")
            completed_at := some 5 } PipelineStage.dataFetch 300
          = WaitOutcome.timedOut) :=
  ⟨⟨rfl, rfl⟩,
   claim_C3 5 "shutdown" ['a'] coordStateA pipelineA PipelineStage.dataFetch 300
     rfl rfl⟩

end ReportAgent
